import Mathlib

/-!
Verification development for the course-folder review workflow
(`backend/course_folders/views.py` and `backend/course_folders/models.py`).

The semi-structured `outline_content` JSON document is modelled by the
`Json` inductive below; Python `dict`s become insertion-ordered association
lists, which matches CPython's key-order semantics.  Machine integers do not
occur in the modelled code paths; counts are `Nat`.
-/

namespace CFMS

/-- JSON values as stored in the folder's `outline_content` document.
Objects are insertion-ordered association lists (CPython dict semantics). -/
inductive Json where
  | null : Json
  | bool (b : Bool) : Json
  | num (n : Int) : Json
  | str (s : String) : Json
  | arr (xs : List Json) : Json
  | obj (kvs : List (String × Json)) : Json

/-- Python truthiness (`bool(x)`): `None`, `False`, `0`, `""`, `[]`, `{}`
are falsy; everything else is truthy. -/
def Json.truthy : Json → Bool
  | .null => false
  | .bool b => b
  | .num n => n != 0
  | .str s => s != ""
  | .arr xs => !xs.isEmpty
  | .obj kvs => !kvs.isEmpty

/-- First-occurrence lookup in an association list (dict key access). -/
def lookupKey : List (String × Json) → String → Option Json
  | [], _ => none
  | (k', v) :: rest, k => if k' = k then some v else lookupKey rest k

/-- `d.get(k)` without default: `none` when the key is absent or the value
is not a dict. -/
def Json.getOpt : Json → String → Option Json
  | .obj kvs, k => lookupKey kvs k
  | _, _ => none

/-- `d.get(k)` — Python returns `None` when the key is absent. -/
def Json.get (j : Json) (k : String) : Json := (j.getOpt k).getD .null

/-- `d.get(k, default)`. -/
def Json.getD (j : Json) (k : String) (d : Json) : Json := (j.getOpt k).getD d

/-- Python `a or b`: `a` if truthy, else `b`. -/
def pyOr (a b : Json) : Json := if a.truthy then a else b

/-- Python `str(x)` for the scalar JSON values that occur as assessment
identifiers; compound values are abbreviated (identifiers in the content
document are strings or numbers). -/
def pyStr : Json → String
  | .str s => s
  | .num n => toString n
  | .bool true => "True"
  | .bool false => "False"
  | .null => "None"
  | .arr _ => "[...]"
  | .obj _ => "\x7b...\x7d"

/-- In-place dict update `d[k] = v`: replaces the first binding of `k`,
appends at the end when `k` is new (CPython insertion order). -/
def setKey : List (String × Json) → String → Json → List (String × Json)
  | [], k, v => [(k, v)]
  | (k', v') :: rest, k, v =>
      if k' = k then (k', v) :: rest else (k', v') :: setKey rest k v

mutual
/-- `deep_merge(a, b)` from `views.py` (`save_outline`): recursively merge
dict `b` into dict `a`; lists and scalars (and type mismatches) are
replaced by the incoming value. -/
def deep_merge : Json → Json → Json
  | .obj a, .obj b => .obj (mergeList a b)
  | _, b => b

/-- The body of `for k, v in b.items()` in `deep_merge`: merge recursively
when both the current and the incoming value are dicts, else replace. -/
def mergeStep (res : List (String × Json)) (k : String) (v : Json) :
    List (String × Json) :=
  match lookupKey res k, v with
  | some (.obj ra), .obj vb => setKey res k (deep_merge (.obj ra) (.obj vb))
  | _, _ => setKey res k v

/-- The `for k, v in b.items()` loop of `deep_merge`, threading the
result dict. -/
def mergeList : List (String × Json) → List (String × Json) → List (String × Json)
  | res, [] => res
  | res, (k, v) :: rest => mergeList (mergeStep res k v) rest
end

/-- Keys of a dict are pairwise distinct (CPython dicts cannot hold
duplicate keys). -/
def nodupKeys : List (String × Json) → Bool
  | [] => true
  | (k, _) :: rest => !(rest.any (fun kv => kv.1 == k)) && nodupKeys rest

mutual
/-- Well-formedness of a JSON document produced by Python: every object in
it has pairwise-distinct keys. -/
def Json.wfObjs : Json → Bool
  | .obj kvs => nodupKeys kvs && wfList kvs
  | _ => true

def wfList : List (String × Json) → Bool
  | [] => true
  | (_, v) :: rest => v.wfObjs && wfList rest
end

/-! ## Data model (`course_folders/models.py`) -/

/-- `CourseFolder.STATUS_CHOICES`. -/
inductive Status where
  | DRAFT | COMPLETED | SUBMITTED | APPROVED_COORDINATOR | REJECTED_COORDINATOR
  | ASSIGNED_TO_CONVENER | UNDER_AUDIT | AUDIT_COMPLETED | REJECTED_BY_CONVENER
  | SUBMITTED_TO_HOD | APPROVED_BY_HOD | REJECTED_BY_HOD
deriving Repr, DecidableEq

/-- `AuditAssignment.decision` choices. -/
inductive Decision where
  | PENDING | APPROVED | REJECTED
deriving Repr, DecidableEq

/-- A `FileField` is modelled by the stored file name; Django's falsy
`FieldFile` (no file, or empty name) is `none` / `some ""`. -/
def hasFile : Option String → Bool
  | some n => n != ""
  | none => false

/-- `CourseLogEntry` (only the fields the modelled code reads). -/
structure LogEntry where
  lecture_number : Nat
  attendance_sheet : Option String
deriving Repr, DecidableEq

/-- `FolderComponent` (only the fields the modelled code reads). -/
structure Component where
  component_type : String
  file : Option String
deriving Repr, DecidableEq

/-- `Assessment`: the three document fields are presence flags, matching
how `CourseFolder.check_completeness` tests them. -/
structure Assessment where
  assessment_type : String
  title : String
  question_paper : Bool
  model_solution : Bool
  sample_scripts : Bool
deriving Repr, DecidableEq

/-- `AuditAssignment`. -/
structure AuditAssignment where
  auditor : Nat
  assigned_by : Nat
  feedback_submitted : Bool
  remarks : String
  ratings : Json
  decision : Decision
  feedback_file : Option String

/-- `users.User` (only the fields `assign_audit` reads). -/
structure User where
  id : Nat
  role : String
  is_active : Bool
deriving Repr, DecidableEq

/-- `CourseFolder` restricted to the fields the modelled operations read or
write, together with its owned child records (audit assignments, log
entries, components, assessments, outline snapshots, status history). -/
structure Folder where
  status : Status
  first_activity_completed : Bool
  outline_content : Json
  components : List Component
  log_entries : List LogEntry
  assessments : List Assessment
  audit_assignments : List AuditAssignment
  clo_assessment_file : Bool
  project_report_file : Bool
  course_result_file : Bool
  folder_review_report_file : Bool
  is_complete : Bool
  coordinator_reviewed_by : Option Nat
  coordinator_notes : String
  convener_assigned_by : Option Nat
  convener_notes : String
  hod_reviewed_by : Option Nat
  hod_decision : Option Decision
  hod_notes : String
  hod_final_feedback : String
  outline_snapshots : List Json
  status_history : List (Status × String)

/-! ## `CourseFolder.check_completeness` (`models.py`) -/

/-- Python `word.title()` for a single word: first letter upper-cased,
rest lower-cased. -/
def titleWord (w : String) : String :=
  match w.data with
  | [] => ""
  | c :: cs => String.mk (c.toUpper :: cs.map Char.toLower)

/-- `comp_type.replace('_', ' ').title()`. -/
def titleize (s : String) : String :=
  String.intercalate " " ((s.splitOn "_").map titleWord)

/-- `self.components.filter(component_type=t).exists()`. -/
def hasComponentType (folder : Folder) (t : String) : Bool :=
  folder.components.any (fun c => c.component_type == t)

/-- The `for comp_type in required_components` loop of
`check_completeness`: first missing required component, if any. -/
def findMissingComponent (folder : Folder) : List String → Option String
  | [] => none
  | t :: rest =>
      if !(hasComponentType folder t) then
        some ("Missing " ++ titleize t ++ " document")
      else findMissingComponent folder rest

/-- The per-assessment document loop of `check_completeness`: first
assessment missing a question paper, model solution or sample scripts. -/
def findMissingAssessmentDoc : List Assessment → Option String
  | [] => none
  | a :: rest =>
      if !a.question_paper then some ("Missing question paper for " ++ a.title)
      else if !a.model_solution then some ("Missing model solution for " ++ a.title)
      else if !a.sample_scripts then some ("Missing sample scripts for " ++ a.title)
      else findMissingAssessmentDoc rest

/-- `self.assessments.filter(assessment_type=t).count()`. -/
def assessmentCount (folder : Folder) (t : String) : Nat :=
  (folder.assessments.filter (fun a => a.assessment_type == t)).length

/-- `CourseFolder.check_completeness` (`models.py`, lines 185-234): the
strict completeness check returning `(ok, message)`. -/
def check_completeness (folder : Folder) : Bool × String :=
  match findMissingComponent folder ["COURSE_OUTLINE", "REFERENCE_BOOKS"] with
  | some msg => (false, msg)
  | none =>
    if folder.log_entries.isEmpty then
      (false, "Course logs have not been recorded")
    else
      let attendance_component_exists := hasComponentType folder "ATTENDANCE"
      let attendance_per_log_complete :=
        !folder.log_entries.isEmpty &&
          !(folder.log_entries.any (fun e => !(hasFile e.attendance_sheet)))
      if !attendance_component_exists && !attendance_per_log_complete then
        (false, "Missing attendance records")
      else
        let assignments_count := assessmentCount folder "ASSIGNMENT"
        let quizzes_count := assessmentCount folder "QUIZ"
        let midterm_count := assessmentCount folder "MIDTERM"
        let final_count := assessmentCount folder "FINAL"
        if assignments_count < 4 then
          (false, s!"Need 4 assignments, have {assignments_count}")
        else if quizzes_count < 4 then
          (false, s!"Need 4 quizzes, have {quizzes_count}")
        else if midterm_count < 1 then
          (false, "Missing midterm")
        else if final_count < 1 then
          (false, "Missing final exam")
        else
          match findMissingAssessmentDoc folder.assessments with
          | some msg => (false, msg)
          | none => (true, "All components complete")

/-! ## `_validate_submission_requirements` (`views.py`, lines 819-1166)

The source accumulates `errors` sequentially with two leading early
returns (empty document / no recognizable content) and one mid-stream
early return (first submission without midterm records) that discards the
errors accumulated before it.  The translation factors each sequential
check block into a named function and concatenates them in source order;
the early returns happen before the list is built, which yields the same
output. -/

/-- `outline = folder.outline_content or {}`. -/
def outlineOf (folder : Folder) : Json := pyOr folder.outline_content (.obj [])

def has_course_outline (outline : Json) : Bool :=
  (outline.get "courseOutline").truthy || (outline.get "course_outline").truthy ||
  (outline.get "introduction").truthy || (outline.get "objectives").truthy ||
  (outline.get "courseDescription").truthy || (outline.get "learningOutcomes").truthy ||
  (outline.get "creditHours").truthy || (outline.get "textbooks").truthy

def has_course_log (folder : Folder) : Bool :=
  ((outlineOf folder).get "courseLogEntries").truthy ||
  ((outlineOf folder).get "courseLogs").truthy || !folder.log_entries.isEmpty

def has_assignments (outline : Json) : Bool := (outline.getD "assignments" (.arr [])).truthy

def has_quizzes (outline : Json) : Bool := (outline.getD "quizzes" (.arr [])).truthy

def has_midterm (outline : Json) : Bool :=
  (outline.get "midterm").truthy || (outline.get "midTerm").truthy ||
  (outline.get "midtermPaper").truthy || (outline.get "midtermSolution").truthy ||
  (outline.get "midtermRecords").truthy

def has_final (outline : Json) : Bool :=
  (outline.get "final").truthy || (outline.get "finalExam").truthy ||
  (outline.get "finalPaper").truthy || (outline.get "finalSolution").truthy ||
  (outline.get "finalRecords").truthy

/-- Attendance components with an actual file. -/
def has_attendance_component (folder : Folder) : Bool :=
  folder.components.any (fun c => c.component_type == "ATTENDANCE" && hasFile c.file)

/-- Attendance sheets attached to log entries: the source loop breaks at
the FIRST entry carrying a sheet, i.e. it is an existential check. -/
def has_attendance_in_logs (folder : Folder) : Bool :=
  folder.log_entries.any (fun e => hasFile e.attendance_sheet)

/-- Attendance stored inside `outline_content`. -/
def has_attendance_in_outline (outline : Json) : Bool :=
  let attendance_file_data := outline.getD "attendanceFile" (.obj [])
  let fromFileData :=
    match attendance_file_data with
    | .obj _ =>
        (attendance_file_data.get "fileUrl").truthy ||
        (attendance_file_data.get "fileName").truthy ||
        (attendance_file_data.get "file").truthy ||
        (attendance_file_data.get "name").truthy
    | _ => false
  if fromFileData then true
  else
    (outline.get "attendance").truthy || (outline.get "attendanceRecord").truthy ||
    (outline.get "attendanceRecords").truthy

def has_attendance (folder : Folder) : Bool :=
  has_attendance_component folder || has_attendance_in_logs folder ||
  has_attendance_in_outline (outlineOf folder)

/-- CHECK 1's `any([...])`: some recognizable content block exists. -/
def hasAnyContent (folder : Folder) : Bool :=
  has_course_outline (outlineOf folder) || has_course_log folder ||
  has_assignments (outlineOf folder) || has_quizzes (outlineOf folder) ||
  has_midterm (outlineOf folder) || has_final (outlineOf folder)

/-- `is_second_submission`: first cycle approved by HOD and folder back at
`APPROVED_BY_HOD`. -/
def is_second_submission (folder : Folder) : Bool :=
  folder.first_activity_completed && folder.status == Status.APPROVED_BY_HOD

def attendanceRequiredMsg : String :=
  "Attendance record is required. Please upload attendance sheets (either as a component or attach to course log entries)."

def emptyFolderMsg : String :=
  "Cannot submit an empty folder. Please add at least some content (course outline or course log) before submitting."

def beforeMidtermMsg : String :=
  "Cannot submit folder before midterm. Please upload midterm records first."

/-- CHECK 2: course outline and course log requirements. -/
def check2_errors (folder : Folder) : List String :=
  let outline := outlineOf folder
  (if !(has_course_outline outline) then
     ["Course Outline is required. Please add course outline content (Introduction, Objectives, Course Description, etc.)."]
   else []) ++
  (if !(has_course_log folder) then
     ["Course Log is required. Please add at least one course log entry."]
   else if !folder.log_entries.isEmpty then []
   else
     let log_entries := pyOr (outline.getD "courseLogEntries" (.arr [])) (outline.getD "courseLogs" (.arr []))
     if !log_entries.truthy then
       ["Course Log must have at least one entry. Please add course log entries."]
     else [])

/-- CHECK 2 (attendance): a single reason when no attendance proof is
found by any of the three lookups. -/
def attendance_errors (folder : Folder) : List String :=
  if !(has_attendance folder) then [attendanceRequiredMsg] else []

def finalMandatoryMsg : String :=
  "Final term records are mandatory for second submission. Please upload final term records."

/-- CHECK 3 (second-submission branch): final records demanded when the
stage is determined. -/
def stage_final_errors (folder : Folder) : List String :=
  if is_second_submission folder && !(has_final (outlineOf folder)) then
    [finalMandatoryMsg]
  else []

/-- CHECK 5: midterm question paper, model solution and the three labelled
sample records (first submission only). -/
def midterm_errors (folder : Folder) : List String :=
  let outline := outlineOf folder
  if !(is_second_submission folder) then
    if !(has_midterm outline) then
      ["Midterm records are mandatory for first submission. Please upload midterm records."]
    else
      let midterm_data := pyOr (outline.getD "midterm" (.obj [])) (outline.getD "midTerm" (.obj []))
      let midterm_records := pyOr (outline.getD "midtermRecords" (.obj [])) (midterm_data.getD "records" (.obj []))
      (if !((midterm_data.get "questionPaper").truthy || (midterm_data.get "question_paper").truthy ||
            (outline.get "midtermPaper").truthy) then
         ["Midterm question paper is required."] else []) ++
      (if !((midterm_data.get "modelSolution").truthy || (midterm_data.get "model_solution").truthy ||
            (outline.get "midtermSolution").truthy) then
         ["Midterm model solution is required."] else []) ++
      (if !(midterm_records.get "best").truthy then ["Midterm best solution record is required."] else []) ++
      (if !(midterm_records.get "average").truthy then ["Midterm average solution record is required."] else []) ++
      (if !(midterm_records.get "worst").truthy then ["Midterm worst solution record is required."] else [])
  else []

/-- CHECK 6: final-term block (second submission only). -/
def final_errors (folder : Folder) : List String :=
  let outline := outlineOf folder
  if is_second_submission folder then
    if !(has_final outline) then [finalMandatoryMsg]
    else
      let final_data := pyOr (outline.getD "final" (.obj [])) (outline.getD "finalExam" (.obj []))
      let final_records := pyOr (outline.getD "finalRecords" (.obj [])) (final_data.getD "records" (.obj []))
      (if !((final_data.get "questionPaper").truthy || (final_data.get "question_paper").truthy ||
            (outline.get "finalPaper").truthy) then
         ["Final term question paper is required."] else []) ++
      (if !((final_data.get "modelSolution").truthy || (final_data.get "model_solution").truthy ||
            (outline.get "finalSolution").truthy) then
         ["Final term model solution is required."] else []) ++
      (if !(final_records.get "best").truthy then ["Final term best solution record is required."] else []) ++
      (if !(final_records.get "average").truthy then ["Final term average solution record is required."] else []) ++
      (if !(final_records.get "worst").truthy then ["Final term worst solution record is required."] else [])
  else []

/-- CHECK 7: CLO assessment artifact (both submissions). -/
def clo_errors (folder : Folder) : List String :=
  if !folder.clo_assessment_file then
    if !(is_second_submission folder) then
      ["CLO Assessment is required for first submission (after midterm). Please upload the CLO assessment."]
    else
      ["CLO Assessment is required for second submission (after final term). Please upload the CLO assessment."]
  else []

/-- CHECK 8: the three extra artifacts demanded only at the second
submission. -/
def docs_errors (folder : Folder) : List String :=
  if is_second_submission folder then
    (if !folder.project_report_file then
       ["Project Report is required for second submission (after final term). Please upload the project report."]
     else []) ++
    (if !folder.folder_review_report_file then
       ["Course Review Report is required for second submission (after final term). Please upload the course review report."]
     else []) ++
    (if !folder.course_result_file then
       ["Course Result is required for second submission (after final term). Please upload the course result."]
     else [])
  else []

/-- A JSON array's elements (the assessment collections in the content
document are JSON arrays). -/
def asList : Json → List Json
  | .arr xs => xs
  | _ => []

def requiredCount (folder : Folder) : Nat := if is_second_submission folder then 4 else 2

def stageName (folder : Folder) : String :=
  if is_second_submission folder then "second submission (after final)"
  else "first submission (after midterm)"

/-- Per-item body of CHECK 9 / CHECK 10: one assignment or quiz entry,
looked up by EXACT string identifier in the `Records`/`Papers`/`Solutions`
maps (`str(item.get('id', ''))`), 1-based position `i`. -/
def item_errors (kind kindLower : String) (records papers solutions : Json)
    (i : Nat) (item : Json) : List String :=
  let item_id := pyStr (item.getD "id" (.str ""))
  let recs := records.getD item_id (.obj [])
  let item_name :=
    match item.getOpt "name" with
    | some v => pyStr v
    | none => kind ++ " " ++ item_id
  let paper_data := papers.getD item_id (.obj [])
  let questions :=
    match paper_data with
    | .obj _ => asList (paper_data.getD "questions" (.arr []))
    | _ => []
  let has_question_paper :=
    (item.get "questionPaper").truthy || (item.get "question_paper").truthy ||
    decide (0 < questions.length) ||
    (paper_data.get "questionPaper").truthy || (paper_data.get "question_paper").truthy
  let solution_data := solutions.getD item_id (.obj [])
  let has_model_solution :=
    (item.get "modelSolution").truthy || (item.get "model_solution").truthy ||
    solution_data.truthy ||
    (paper_data.get "modelSolution").truthy || (paper_data.get "model_solution").truthy
  let missing :=
    (if !(recs.get "best").truthy then ["best"] else []) ++
    (if !(recs.get "average").truthy then ["average"] else []) ++
    (if !(recs.get "worst").truthy then ["worst"] else [])
  let istr := toString i
  (if !has_question_paper then
     [kind ++ " \x27" ++ item_name ++ "\x27 (#" ++ istr ++
      ") is missing question paper. Please add questions to the " ++ kindLower ++ "."]
   else []) ++
  (if !has_model_solution then
     [kind ++ " \x27" ++ item_name ++ "\x27 (#" ++ istr ++
      ") is missing model solution. Please add solution content."]
   else []) ++
  (if !missing.isEmpty then
     [kind ++ " \x27" ++ item_name ++ "\x27 (#" ++ istr ++
      ") is missing required solution records: " ++ String.intercalate ", " missing]
   else [])

/-- CHECK 9: assignment count, then per-item documents for the first
`required_assignments` entries (1-based enumeration). -/
def assignments_errors (folder : Folder) : List String :=
  let outline := outlineOf folder
  let assignments := asList (outline.getD "assignments" (.arr []))
  let required := requiredCount folder
  if assignments.length < required then
    let stage := stageName folder
    let found := assignments.length
    [s!"For {stage}, at least {required} assignments are required. Found {found} assignment(s)."]
  else
    let assignment_records := outline.getD "assignmentRecords" (.obj [])
    let assignment_papers := outline.getD "assignmentPapers" (.obj [])
    let assignment_solutions := outline.getD "assignmentSolutions" (.obj [])
    ((assignments.take required).enum.map (fun p =>
        item_errors "Assignment" "assignment" assignment_records assignment_papers
          assignment_solutions (p.1 + 1) p.2)).flatten

/-- CHECK 10: quiz count, then per-item documents for the first
`required_quizzes` entries. -/
def quizzes_errors (folder : Folder) : List String :=
  let outline := outlineOf folder
  let quizzes := asList (outline.getD "quizzes" (.arr []))
  let required := requiredCount folder
  if quizzes.length < required then
    let stage := stageName folder
    let found := quizzes.length
    [s!"For {stage}, at least {required} quizzes are required. Found {found} quiz/quizzes."]
  else
    let quiz_records := outline.getD "quizRecords" (.obj [])
    let quiz_papers := outline.getD "quizPapers" (.obj [])
    let quiz_solutions := outline.getD "quizSolutions" (.obj [])
    ((quizzes.take required).enum.map (fun p =>
        item_errors "Quiz" "quiz" quiz_records quiz_papers quiz_solutions (p.1 + 1) p.2)).flatten

/-- `_validate_submission_requirements` (`views.py`, lines 819-1166):
returns `(ok, errors)`.  The mid-stream `return` at the missing-midterm
check of CHECK 3 discards the errors accumulated before it. -/
def validate_submission_requirements (folder : Folder) : Bool × List String :=
  let outline := outlineOf folder
  if !outline.truthy then (false, [emptyFolderMsg])
  else if !(hasAnyContent folder) then
    (false, [emptyFolderMsg])
  else if !(is_second_submission folder) && !(has_midterm outline) then
    (false, [beforeMidtermMsg])
  else
    let errors :=
      check2_errors folder ++ attendance_errors folder ++ stage_final_errors folder ++
      midterm_errors folder ++ final_errors folder ++ clo_errors folder ++
      docs_errors folder ++ assignments_errors folder ++ quizzes_errors folder
    (errors.isEmpty, errors)

/-! ## Workflow operations (`views.py`)

Each handler is a function from the folder (plus the request inputs and
the permission facts the view computes from the session) to
`Except String Folder`: an `.error` is a 4xx response that leaves the
stored folder untouched.  Timestamps, notification rows and the external
PDF pipeline are not modelled; the notification-only branches of the
source collapse to identical folder updates. -/

/-- `update_outline`'s editable statuses (`allowed_edit_statuses`). -/
def allowed_edit_statuses : List Status :=
  [.DRAFT, .REJECTED_COORDINATOR, .REJECTED_BY_CONVENER, .REJECTED_BY_HOD]

/-- `update_outline`'s `allowed_sections` set. -/
def allowed_sections : List String :=
  ["courseDescription", "creditHours", "textbooks", "objectives", "learningOutcomes",
   "courseLogEntries", "courseLogs", "assignments", "quizzes",
   "midterm", "midTerm", "midtermPaper", "midtermSolution", "midtermRecords",
   "final", "finalExam", "finalPaper", "finalSolution", "finalRecords",
   "projectReport", "courseResult", "assignmentRecords", "quizRecords"]

/-- `value = incoming.get(section) ...; if value is None: value = incoming`:
a stored JSON `null` behaves like an absent key (Python `None`). -/
def sectionValue (incoming : Json) (s : String) : Json :=
  match incoming.getOpt s with
  | some .null => incoming
  | some v => v
  | none => incoming

/-- `current[section] = value` on the content document (always a dict for
documents written by this code; the non-dict branch cannot occur for
persisted folders). -/
def Json.setTop (j : Json) (k : String) (v : Json) : Json :=
  match j with
  | .obj kvs => .obj (setKey kvs k v)
  | _ => .obj [(k, v)]

/-- `incoming = payload if isinstance(payload, dict) else {}`. -/
def incomingOf (p : Json) : Json :=
  match p with
  | .obj kvs => Json.obj kvs
  | _ => Json.obj []

/-- `update_outline` (SaveContent, `views.py` lines 570-694): snapshot the
prior document, then either replace one top-level section or deep-merge the
whole document.  `section` is Python-truthiness-tested, so an empty-string
section selects the whole-document merge. -/
def save_outline (folder : Folder) (is_owner : Bool) (payload : Option Json)
    (sect : Option String) : Except String Folder :=
  if !is_owner then .error "You can only edit your own folders"
  else if !(allowed_edit_statuses.contains folder.status) &&
          !(folder.status == Status.APPROVED_BY_HOD && folder.first_activity_completed) then
    .error "Cannot edit folder with this status"
  else
    match payload with
    | none => .error "outline_content payload is required"
    | some p =>
      let snapshotted :=
        { folder with outline_snapshots := pyOr folder.outline_content (.obj []) :: folder.outline_snapshots }
      let current := pyOr folder.outline_content (.obj [])
      let incoming := incomingOf p
      match sect with
      | some s =>
        if s != "" then
          let value := sectionValue incoming s
          let current' :=
            if !(allowed_sections.contains s) then
              -- still allow arbitrary keys but keep it scoped to a single top-level key
              current.setTop s value
            else
              current.setTop s value
          .ok { snapshotted with outline_content := current' }
        else
          .ok { snapshotted with outline_content := deep_merge current incoming }
      | none =>
          .ok { snapshotted with outline_content := deep_merge current incoming }

/-- `submit`'s allowed starting statuses. -/
def submit_allowed_statuses : List Status :=
  [.DRAFT, .REJECTED_COORDINATOR, .REJECTED_BY_CONVENER, .REJECTED_BY_HOD, .APPROVED_BY_HOD]

/-- `submit` (`views.py` lines 1168-1275): the blocking gate is
`_validate_submission_requirements`; `check_completeness` is consulted but
its verdict is only recorded in `is_complete` ("is_complete is
informational; validation_errors above are the blocking checks"). -/
def submit (folder : Folder) (is_owner coordinator_exists : Bool) : Except String Folder :=
  if !is_owner then .error "You do not have permission to submit this folder"
  else if !(submit_allowed_statuses.contains folder.status) then
    .error "Cannot submit folder with this status"
  else if !coordinator_exists then .error "Course coordinator not assigned"
  else if !(validate_submission_requirements folder).1 then
    .error "Submission validation failed"
  else
    let is_complete := (check_completeness folder).1
    let is_second := folder.first_activity_completed && folder.status == Status.APPROVED_BY_HOD
    let note :=
      if is_second then
        "Folder submitted to Coordinator for review (second submission after final term - full approval cycle will repeat)"
      else
        "Folder submitted to Coordinator for review (first submission after midterm)"
    .ok { folder with
          status := Status.SUBMITTED
          is_complete := is_complete
          status_history := (Status.SUBMITTED, note) :: folder.status_history }

/-- `coordinator_review` (`views.py` lines 1277-1422). -/
def coordinator_review (folder : Folder) (is_coordinator : Bool) (user : Nat)
    (action notes : String) : Except String Folder :=
  if !is_coordinator then
    .error "Only course coordinators assigned to this course can review folders"
  else
    let can_edit_decision :=
      (folder.status == Status.APPROVED_COORDINATOR || folder.status == Status.REJECTED_COORDINATOR) &&
      folder.coordinator_reviewed_by == some user
    if !([Status.SUBMITTED, .APPROVED_COORDINATOR, .REJECTED_COORDINATOR].contains folder.status) then
      .error "Cannot review folder with this status"
    else if (folder.status == Status.APPROVED_COORDINATOR || folder.status == Status.REJECTED_COORDINATOR) &&
            !can_edit_decision then
      .error "You can only edit decisions you made."
    else
      let is_editing :=
        folder.status == Status.APPROVED_COORDINATOR || folder.status == Status.REJECTED_COORDINATOR
      if action == "approve" then
        let note := if !is_editing then "Approved by Coordinator: " ++ notes
                    else "Decision changed to Approved by Coordinator: " ++ notes
        .ok { folder with
              status := Status.APPROVED_COORDINATOR
              coordinator_reviewed_by := some user
              coordinator_notes := notes
              status_history := (Status.APPROVED_COORDINATOR, note) :: folder.status_history }
      else if action == "reject" then
        let note := if !is_editing then "Rejected by Coordinator: " ++ notes
                    else "Decision changed to Rejected by Coordinator: " ++ notes
        .ok { folder with
              status := Status.REJECTED_COORDINATOR
              coordinator_reviewed_by := some user
              coordinator_notes := notes
              status_history := (Status.REJECTED_COORDINATOR, note) :: folder.status_history }
      else .error "Invalid action."

/-- `assign_audit` (`views.py` lines 1573-1642): `get_or_create` keeps an
existing (folder, auditor) assignment and appends new ones. -/
def assign_audit (folder : Folder) (is_convener : Bool) (assigner : Nat)
    (auditor_ids : List Nat) (users : List User) : Except String Folder :=
  if !is_convener then .error "Only conveners can assign audit team"
  else if folder.status != Status.APPROVED_COORDINATOR then
    .error "Cannot assign audit for folder with this status"
  else if auditor_ids.isEmpty then .error "At least one auditor must be selected"
  else
    let auditors := users.filter (fun u => auditor_ids.contains u.id && u.is_active && u.role != "HOD")
    if auditors.length != auditor_ids.length then
      .error "One or more selected auditors are invalid"
    else
      let assignments := auditors.foldl (fun acc u =>
        if acc.any (fun a => a.auditor == u.id) then acc
        else acc ++ [{ auditor := u.id, assigned_by := assigner, feedback_submitted := false,
                       remarks := "", ratings := Json.obj [], decision := Decision.PENDING,
                       feedback_file := none }]) folder.audit_assignments
      .ok { folder with
            status := Status.UNDER_AUDIT
            convener_assigned_by := some assigner
            audit_assignments := assignments
            status_history := (Status.UNDER_AUDIT, "Assigned to audit team member(s)") :: folder.status_history }

/-- `unassign_audit` (`views.py` lines 1644-1685): deletes every
assignment and reverts the status. -/
def unassign_audit (folder : Folder) (is_convener : Bool) : Except String Folder :=
  if !is_convener then .error "Only conveners can unassign audit team"
  else if folder.status != Status.UNDER_AUDIT then
    .error "Cannot unassign audit for folder with this status"
  else
    .ok { folder with
          audit_assignments := []
          status := Status.APPROVED_COORDINATOR
          convener_assigned_by := none
          status_history := (Status.APPROVED_COORDINATOR, "Audit team unassigned") :: folder.status_history }

/-- Decision histogram of `_compute_audit_summary` as
(APPROVED, REJECTED, PENDING) counts; the per-category rating means of the
summary are not modelled — the routing logic reads only the REJECTED
count. -/
def audit_decision_counts (folder : Folder) : Nat × Nat × Nat :=
  ((folder.audit_assignments.filter (fun a => a.decision == Decision.APPROVED)).length,
   (folder.audit_assignments.filter (fun a => a.decision == Decision.REJECTED)).length,
   (folder.audit_assignments.filter (fun a => a.decision == Decision.PENDING)).length)

/-- The literal decision strings `submit_audit_report` maps to `APPROVED`. -/
def approveDecisionVals : List String := ["approve", "APPROVED", "approved", "Accept", "ACCEPT"]

/-- The literal decision strings `submit_audit_report` maps to `REJECTED`. -/
def rejectDecisionVals : List String := ["reject", "REJECTED", "rejected", "Decline", "DECLINE"]

/-- The two `if decision_val in [...]` updates: an unrecognised or absent
decision leaves the stored decision unchanged. -/
def applyDecision (decision_val : Option String) (old : Decision) : Decision :=
  match decision_val with
  | some dv =>
      if approveDecisionVals.contains dv then Decision.APPROVED
      else if rejectDecisionVals.contains dv then Decision.REJECTED
      else old
  | none => old

/-- Statuses in which `submit_audit_report` refuses any change. -/
def audit_blocked_statuses : List Status :=
  [.SUBMITTED_TO_HOD, .APPROVED_BY_HOD, .REJECTED_BY_HOD]

/-- The `assignment.feedback_submitted = True; ... assignment.save()` block
of `submit_audit_report`: the fields written to the auditor's assignment
row.  `gpdf` is the externally generated single-auditor artifact saved
when the auditor uploads no file of their own. -/
def submitAuditUpdate (asg : AuditAssignment) (remarks : String) (dv : Option String)
    (ratings : Json) (ffile gpdf : Option String) : AuditAssignment :=
  { asg with
    feedback_submitted := true
    remarks := remarks
    decision := applyDecision dv asg.decision
    ratings := if ratings.truthy then ratings else asg.ratings
    feedback_file :=
      match ffile with
      | some f => some f
      | none =>
        match gpdf with
        | some g => some g
        | none => asg.feedback_file }

/-- `submit_audit_report` (`views.py` lines 1687-1868).  Returns the
updated folder together with the `(submitted, total)` counts of the JSON
response, both recomputed from the persisted assignment rows after the
save.  `generated_pdf` stands for the externally composed single-auditor
artifact attached when the auditor uploads none. -/
def submit_audit_report (folder : Folder) (has_audit_access : Bool) (user : Nat)
    (overall_feedback : String) (decision_val : Option String) (ratings : Json)
    (feedback_file : Option String) (generated_pdf : Option String) :
    Except String (Folder × Nat × Nat) :=
  if !has_audit_access then .error "Only audit team members can submit reports"
  else
    match folder.audit_assignments.find? (fun a => a.auditor == user) with
    | none => .error "You are not assigned to audit this folder"
    | some assignment =>
      if audit_blocked_statuses.contains folder.status then
        .error "This folder has already been reviewed by HOD (approved or rejected). You cannot change your audit decision at this stage."
      else if !([Status.UNDER_AUDIT, .AUDIT_COMPLETED].contains folder.status) then
        .error "Cannot submit audit for folder with this status"
      else if overall_feedback == "" then .error "Overall feedback is required"
      else
        let remarks := overall_feedback
        let updated : AuditAssignment :=
          submitAuditUpdate assignment remarks decision_val ratings feedback_file generated_pdf
        let folder1 :=
          { folder with audit_assignments :=
              folder.audit_assignments.map (fun a => if a.auditor == user then updated else a) }
        if updated.decision == Decision.REJECTED then
          -- Early route to Convener on any single REJECTED decision
          let folder2 :=
            { folder1 with
              status := if folder1.status != Status.AUDIT_COMPLETED then Status.AUDIT_COMPLETED
                        else folder1.status
              status_history :=
                (Status.AUDIT_COMPLETED, "Audit marked completed due to rejection by an auditor") ::
                  folder1.status_history }
          let total := folder2.audit_assignments.length
          let submitted := (folder2.audit_assignments.filter (fun a => a.feedback_submitted)).length
          .ok (folder2, submitted, total)
        else
          let total : Nat := folder1.audit_assignments.length
          let submitted : Nat := (folder1.audit_assignments.filter (fun a => a.feedback_submitted)).length
          if decide (0 < total) && submitted == total then
            let counts := audit_decision_counts folder1
            let any_rejected := decide (0 < counts.2.1)
            let folder2 :=
              if any_rejected then
                { folder1 with
                  status := if folder1.status != Status.AUDIT_COMPLETED then Status.AUDIT_COMPLETED
                            else folder1.status }
              else
                { folder1 with
                  status := if folder1.status != Status.AUDIT_COMPLETED then Status.AUDIT_COMPLETED
                            else folder1.status }
            let folder3 :=
              { folder2 with status_history :=
                  (folder2.status, "Audit cycle completed and routed accordingly") :: folder2.status_history }
            .ok (folder3, submitted, total)
          else
            .ok (folder1, submitted, total)

/-- `convener_review` (`views.py` lines 1870-1996); the consolidated-PDF
build is a non-blocking external side effect and is not modelled. -/
def convener_review (folder : Folder) (is_convener : Bool) (action notes : String) :
    Except String Folder :=
  if !is_convener then .error "Only conveners can review audit reports"
  else if !([Status.AUDIT_COMPLETED, .SUBMITTED_TO_HOD, .REJECTED_BY_CONVENER].contains folder.status) then
    .error "Cannot review folder with this status"
  else if [Status.APPROVED_BY_HOD, .REJECTED_BY_HOD].contains folder.status then
    .error "Cannot change decision. Folder has already been reviewed by HOD."
  else if action == "forward_to_hod" then
    .ok { folder with
          status := Status.SUBMITTED_TO_HOD
          convener_notes := notes
          status_history := (Status.SUBMITTED_TO_HOD, "Forwarded to HOD: " ++ notes) :: folder.status_history }
  else if action == "reject" then
    if notes == "" then .error "Remarks are required when rejecting a folder"
    else
      .ok { folder with
            status := Status.REJECTED_BY_CONVENER
            convener_notes := notes
            status_history := (Status.REJECTED_BY_CONVENER, "Rejected by Convener: " ++ notes) :: folder.status_history }
  else .error "Invalid action."

/-- `hod_final_decision`'s allowed starting statuses. -/
def hod_allowed_statuses : List Status :=
  [.SUBMITTED_TO_HOD, .APPROVED_BY_HOD, .REJECTED_BY_HOD]

/-- `hod_final_decision` (`views.py` lines 1998-2112): approval sets
`first_activity_completed` when it is still false (`if not
first_activity_completed: folder.first_activity_completed = True`). -/
def hod_final_decision (folder : Folder) (is_hod : Bool) (user : Nat)
    (decision notes final_feedback : String) : Except String Folder :=
  if !is_hod then .error "Only HOD can make final approval decision"
  else if !(hod_allowed_statuses.contains folder.status) then
    .error "Cannot review folder with this status"
  else if decision == "approve" then
    let base :=
      { folder with
        status := Status.APPROVED_BY_HOD
        hod_reviewed_by := some user
        hod_decision := some Decision.APPROVED
        hod_notes := notes
        hod_final_feedback := final_feedback }
    let base2 :=
      if !folder.first_activity_completed then { base with first_activity_completed := true }
      else base
    let submission_type :=
      if base2.first_activity_completed then "Second submission" else "First submission"
    let note :=
      if notes != "" then submission_type ++ " - Final approval by HOD: " ++ notes
      else submission_type ++ " - Final approval by HOD"
    .ok { base2 with status_history := (Status.APPROVED_BY_HOD, note) :: base2.status_history }
  else if decision == "reject" then
    let note := if notes != "" then "Rejected by HOD: " ++ notes else "Rejected by HOD"
    .ok { folder with
          status := Status.REJECTED_BY_HOD
          hod_reviewed_by := some user
          hod_decision := some Decision.REJECTED
          hod_notes := notes
          hod_final_feedback := final_feedback
          status_history := (Status.REJECTED_BY_HOD, note) :: folder.status_history }
  else .error "Invalid decision."

/-! ## Report-side identifier resolution (`pdf_utils.py`, lines 326-400) -/

/-- Python `str.isspace` characters relevant to `strip()`. -/
def isSpaceChar (c : Char) : Bool :=
  c == ' ' || c == '\t' || c == '\n' || c == '\r' || c == '\x0B' || c == '\x0C'

/-- Python `str.strip()`: whitespace removed from both ends. -/
def pyStrip (s : String) : String :=
  String.mk (((s.data.dropWhile isSpaceChar).reverse.dropWhile isSpaceChar).reverse)

/-- Keys of a JSON object in insertion order (`list(d.keys())`). -/
def objKeys : Json → List String
  | .obj kvs => kvs.map Prod.fst
  | _ => []

/-- `value in dict`: dict keys are strings, so a non-string identifier is
never a member. -/
def keyMem (papers : Json) (v : Json) : Bool :=
  match v with
  | .str s => (papers.getOpt s).isSome
  | _ => false

/-- The paper/solution key resolution of `generate_assignment_section`
(`pdf_utils.py`): (1) exact match on `str(id)` then on the original value,
(2) first key equal after `strip()` to either rendering of the id,
(3) positional fallback `keys[idx]`, (4) last-ditch any-key fallback
(`keys[0]` for the first entry, else `keys[-1]`). -/
def resolvePaperKey (papers : Json) (assignment_id_original : Json) (idx : Nat) : Option String :=
  let assignment_id : Option String :=
    match assignment_id_original with
    | .null => none
    | j => some (pyStr j)
  let keys := objKeys papers
  let exact1 :=
    match assignment_id with
    | some sid => sid != "" && (papers.getOpt sid).isSome
    | none => false
  let exact2 := assignment_id_original.truthy && keyMem papers assignment_id_original
  let step1 : Option String :=
    if exact1 then assignment_id
    else if exact2 then
      match assignment_id_original with
      | .str s => some s
      | _ => none
    else none
  match step1 with
  | some k => some k
  | none =>
    let sidStr := match assignment_id with | some s => s | none => "None"
    let origStr := pyStr assignment_id_original
    match keys.find? (fun k => pyStrip k == pyStrip sidStr || pyStrip k == pyStrip origStr) with
    | some k => some k
    | none =>
      if idx < keys.length then keys.get? idx
      else if !keys.isEmpty then
        if idx == 0 then keys.get? 0
        else if idx < keys.length then keys.get? idx
        else keys.getLast?
      else none

/-! ## The workflow step relation (for the monotonicity claim) -/

/-- One invocation of a workflow entry point with its request inputs and
the permission facts of the session. -/
inductive Op where
  | opSubmit (is_owner coordinator_exists : Bool)
  | opCoordinatorReview (is_coordinator : Bool) (user : Nat) (action notes : String)
  | opAssignAudit (is_convener : Bool) (assigner : Nat) (auditor_ids : List Nat) (users : List User)
  | opUnassignAudit (is_convener : Bool)
  | opSubmitAuditReport (has_audit_access : Bool) (user : Nat) (overall_feedback : String)
      (decision_val : Option String) (ratings : Json) (feedback_file generated_pdf : Option String)
  | opConvenerReview (is_convener : Bool) (action notes : String)
  | opHodFinalDecision (is_hod : Bool) (user : Nat) (decision notes final_feedback : String)
  | opSaveContent (is_owner : Bool) (payload : Option Json) (sect : Option String)

/-- A rejected request (4xx) leaves the stored folder unchanged. -/
def runOp (folder : Folder) : Op → Folder
  | .opSubmit o c => (submit folder o c).toOption.getD folder
  | .opCoordinatorReview ic u a n => (coordinator_review folder ic u a n).toOption.getD folder
  | .opAssignAudit ic asg ids us => (assign_audit folder ic asg ids us).toOption.getD folder
  | .opUnassignAudit ic => (unassign_audit folder ic).toOption.getD folder
  | .opSubmitAuditReport h u ofb dv r ff gp =>
      match submit_audit_report folder h u ofb dv r ff gp with
      | .ok (f', _, _) => f'
      | .error _ => folder
  | .opConvenerReview ic a n => (convener_review folder ic a n).toOption.getD folder
  | .opHodFinalDecision ih u d n fb => (hod_final_decision folder ih u d n fb).toOption.getD folder
  | .opSaveContent o p s => (save_outline folder o p s).toOption.getD folder

/-- Characterisation of one `deep_merge` loop iteration's written value
(proof infrastructure, not a source function). -/
def mergeValue : Option Json → Json → Json
  | some (.obj ra), .obj vb => deep_merge (.obj ra) (.obj vb)
  | _, v => v

/-! ## Concrete example data (used by witnesses and counterexamples) -/

/-- A folder with no content, in `DRAFT`. -/
def folder0 : Folder :=
  { status := .DRAFT, first_activity_completed := false, outline_content := .obj []
    components := [], log_entries := [], assessments := [], audit_assignments := []
    clo_assessment_file := false, project_report_file := false, course_result_file := false
    folder_review_report_file := false, is_complete := false
    coordinator_reviewed_by := none, coordinator_notes := ""
    convener_assigned_by := none, convener_notes := ""
    hod_reviewed_by := none, hod_decision := none, hod_notes := "", hod_final_feedback := ""
    outline_snapshots := [], status_history := [] }

/-- A complete best/average/worst record block. -/
def recordsBAW : Json := .obj [("best", .str "b"), ("average", .str "a"), ("worst", .str "w")]

/-- A paper payload with one question. -/
def paperQ : Json := .obj [("questions", .arr [.str "q"])]

/-- A non-empty solution payload. -/
def solA : Json := .obj [("answers", .arr [.str "s"])]

/-- A content document satisfying every first-submission rule (outline
text, midterm block, two complete assignments, two complete quizzes). -/
def validFirstOutline : Json := .obj [
  ("objectives", .str "course objectives"),
  ("midtermPaper", .str "mp"),
  ("midtermSolution", .str "ms"),
  ("midtermRecords", recordsBAW),
  ("assignments", .arr [.obj [("id", .str "a1")], .obj [("id", .str "a2")]]),
  ("assignmentRecords", .obj [("a1", recordsBAW), ("a2", recordsBAW)]),
  ("assignmentPapers", .obj [("a1", paperQ), ("a2", paperQ)]),
  ("assignmentSolutions", .obj [("a1", solA), ("a2", solA)]),
  ("quizzes", .arr [.obj [("id", .str "q1")], .obj [("id", .str "q2")]]),
  ("quizRecords", .obj [("q1", recordsBAW), ("q2", recordsBAW)]),
  ("quizPapers", .obj [("q1", paperQ), ("q2", paperQ)]),
  ("quizSolutions", .obj [("q1", solA), ("q2", solA)])]

/-- A draft folder that passes `_validate_submission_requirements` for the
first submission but has no uploaded `FolderComponent`s, so the strict
`check_completeness` fails on it. -/
def folderValidDraft : Folder :=
  { folder0 with
    outline_content := validFirstOutline
    log_entries := [{ lecture_number := 1, attendance_sheet := some "att1.pdf" }]
    clo_assessment_file := true }

/-- Some content (one assignment) but no outline text, no log, no
attendance and no midterm: several rules are violated at once. -/
def folderMultiViolation : Folder :=
  { folder0 with outline_content := .obj [("assignments", .arr [.obj [("id", .str "a")]])] }

/-- Two log entries of which only the first carries an attendance sheet;
no attendance component and nothing embedded in the content document. -/
def folderPartialLogs : Folder :=
  { folder0 with
    outline_content := .obj [("objectives", .str "x"), ("midtermPaper", .str "p"),
      ("midtermSolution", .str "s"), ("midtermRecords", recordsBAW)]
    log_entries := [{ lecture_number := 1, attendance_sheet := some "a.pdf" },
                    { lecture_number := 2, attendance_sheet := none }] }

/-- Outline text and a midterm paper but no attendance proof whatsoever:
no validator early exit fires, and attendance is the violated rule. -/
def folderNoAttendance : Folder :=
  { folder0 with
    outline_content := .obj [("objectives", .str "x"), ("midtermPaper", .str "p")] }

/-- The §4.3 regression scenario: the assessment list declares id "x" but
the payload maps are keyed "9" (first entry) and "a2". -/
def driftedOutline : Json := .obj [
  ("objectives", .str "course objectives"),
  ("midtermPaper", .str "mp"), ("midtermSolution", .str "ms"), ("midtermRecords", recordsBAW),
  ("assignments", .arr [.obj [("id", .str "x")], .obj [("id", .str "a2")]]),
  ("assignmentRecords", .obj [("9", recordsBAW), ("a2", recordsBAW)]),
  ("assignmentPapers", .obj [("9", paperQ), ("a2", paperQ)]),
  ("assignmentSolutions", .obj [("9", solA), ("a2", solA)]),
  ("quizzes", .arr [.obj [("id", .str "q1")], .obj [("id", .str "q2")]]),
  ("quizRecords", .obj [("q1", recordsBAW), ("q2", recordsBAW)]),
  ("quizPapers", .obj [("q1", paperQ), ("q2", paperQ)]),
  ("quizSolutions", .obj [("q1", solA), ("q2", solA)])]

/-- `folderValidDraft` with the identifier-drifted content document. -/
def folderDrifted : Folder := { folderValidDraft with outline_content := driftedOutline }

/-- A fresh `PENDING` assignment for auditor `i` assigned by user 99. -/
def aud (i : Nat) : AuditAssignment :=
  { auditor := i, assigned_by := 99, feedback_submitted := false, remarks := ""
    ratings := .obj [], decision := .PENDING, feedback_file := none }

/-- A folder under audit with three pending auditors. -/
def folderUnderAudit : Folder :=
  { folder0 with status := .UNDER_AUDIT, audit_assignments := [aud 1, aud 2, aud 3] }

/-- Two auditors, the first already submitted an approval. -/
def folderOneApproved : Folder :=
  { folder0 with
    status := .UNDER_AUDIT
    audit_assignments := [{ aud 1 with feedback_submitted := true, decision := .APPROVED }, aud 2] }

/-- A folder already escalated to the HOD, with one recorded decision. -/
def folderAtHod : Folder :=
  { folder0 with
    status := .SUBMITTED_TO_HOD
    audit_assignments := [{ aud 1 with feedback_submitted := true, decision := .APPROVED, remarks := "fine" }, aud 2] }

/-- A nested document for the merge examples. -/
def doc0 : Json := .obj [("a", .obj [("x", .num 1), ("y", .num 2)]), ("b", .arr [.num 1])]

/-- A patch that merges into `a`, replaces the list `b` and adds `c`. -/
def patch0 : Json := .obj [("a", .obj [("y", .num 5), ("z", .num 6)]), ("b", .arr [.num 9]), ("c", .str "new")]

/-! ## Association-list and merge lemmas -/

theorem lookupKey_setKey_self (l : List (String × Json)) (k : String) (v : Json) :
    lookupKey (setKey l k v) k = some v := by
  induction l with
  | nil => simp [setKey, lookupKey]
  | cons hd tl ih =>
    obtain ⟨k0, v0⟩ := hd
    by_cases h : k0 = k
    · simp [setKey, h, lookupKey]
    · simp [setKey, h, lookupKey, ih]

theorem lookupKey_setKey_ne (l : List (String × Json)) (k q : String) (v : Json)
    (h : q ≠ k) : lookupKey (setKey l k v) q = lookupKey l q := by
  have hkq : ¬ k = q := fun hh => h hh.symm
  induction l with
  | nil => simp [setKey, lookupKey, hkq]
  | cons hd tl ih =>
    obtain ⟨k0, v0⟩ := hd
    by_cases hk : k0 = k
    · subst hk
      simp [setKey, lookupKey, hkq]
    · simp [setKey, hk, lookupKey, ih]

theorem setKey_of_lookupKey_eq (l : List (String × Json)) (k : String) (v : Json)
    (h : lookupKey l k = some v) : setKey l k v = l := by
  induction l with
  | nil => simp [lookupKey] at h
  | cons hd tl ih =>
    obtain ⟨k0, v0⟩ := hd
    by_cases hk : k0 = k
    · subst hk
      simp [lookupKey] at h
      simp [setKey, h]
    · simp [lookupKey, hk] at h
      simp [setKey, hk, ih h]

/-- One iteration of the `deep_merge` loop always writes key `k` and
nothing else. -/
theorem mergeStep_eq_setKey (res : List (String × Json)) (k : String) (v : Json) :
    ∃ w, mergeStep res k v = setKey res k w := by
  unfold mergeStep
  split
  · exact ⟨_, rfl⟩
  · exact ⟨_, rfl⟩

theorem lookupKey_mergeList_not_mem (b a : List (String × Json)) (k : String)
    (h : ∀ kv ∈ b, kv.1 ≠ k) :
    lookupKey (mergeList a b) k = lookupKey a k := by
  induction b generalizing a with
  | nil => simp [mergeList]
  | cons hd tl ih =>
    obtain ⟨k0, v0⟩ := hd
    have hk0 : k0 ≠ k := h (k0, v0) (by simp)
    rw [mergeList]
    obtain ⟨w, hw⟩ := mergeStep_eq_setKey a k0 v0
    rw [hw, ih _ (fun kv hkv => h kv (List.mem_cons_of_mem _ hkv)),
      lookupKey_setKey_ne _ _ _ _ (Ne.symm hk0)]

theorem mergeStep_eq (res : List (String × Json)) (k : String) (v : Json) :
    mergeStep res k v = setKey res k (mergeValue (lookupKey res k) v) := by
  unfold mergeStep
  rcases hl : lookupKey res k with _ | j
  · cases v <;> simp [mergeValue]
  · cases j <;> cases v <;> simp [mergeValue]

theorem mergeValue_nonobj (o : Option Json) (v : Json) (h : ∀ vb, v ≠ Json.obj vb) :
    mergeValue o v = v := by
  rcases o with _ | j
  · cases v <;> simp [mergeValue]
  · cases j <;> cases v <;> first
      | exact absurd rfl (h _)
      | simp [mergeValue]

theorem nodupKeys_cons (k0 : String) (v0 : Json) (tl : List (String × Json))
    (h : nodupKeys ((k0, v0) :: tl) = true) :
    (∀ kv ∈ tl, kv.1 ≠ k0) ∧ nodupKeys tl = true := by
  simp only [nodupKeys, Bool.and_eq_true, Bool.not_eq_true', List.any_eq_false] at h
  exact ⟨fun kv hkv => by simpa using h.1 kv hkv, h.2⟩

theorem lookupKey_of_mem_nodup (b : List (String × Json)) (k : String) (v : Json)
    (hnd : nodupKeys b = true) (hmem : (k, v) ∈ b) : lookupKey b k = some v := by
  induction b with
  | nil => simp at hmem
  | cons hd tl ih =>
    obtain ⟨k0, v0⟩ := hd
    obtain ⟨hfresh, hnd2⟩ := nodupKeys_cons k0 v0 tl hnd
    rcases List.mem_cons.mp hmem with heq | hmem2
    · obtain ⟨h1, h2⟩ := Prod.mk.injEq .. ▸ heq
      simp [lookupKey, h1, h2]
    · have hne : k0 ≠ k := fun hh => hfresh (k, v) hmem2 (by rw [hh])
      simp [lookupKey, hne, ih hnd2 hmem2]

theorem lookupKey_mergeList_mem (b : List (String × Json)) (a : List (String × Json))
    (k : String) (v : Json) (hnd : nodupKeys b = true) (hmem : (k, v) ∈ b) :
    lookupKey (mergeList a b) k = some (mergeValue (lookupKey a k) v) := by
  induction b generalizing a with
  | nil => simp at hmem
  | cons hd tl ih =>
    obtain ⟨k0, v0⟩ := hd
    obtain ⟨hfresh, hnd2⟩ := nodupKeys_cons k0 v0 tl hnd
    rcases List.mem_cons.mp hmem with heq | hmem2
    · obtain ⟨h1, h2⟩ := Prod.mk.injEq .. ▸ heq
      subst h1; subst h2
      rw [mergeList, lookupKey_mergeList_not_mem tl _ k hfresh, mergeStep_eq,
        lookupKey_setKey_self]
    · have hne : k0 ≠ k := fun hh => hfresh (k, v) hmem2 (by rw [hh])
      rw [mergeList, ih _ hnd2 hmem2, mergeStep_eq,
        lookupKey_setKey_ne _ _ _ _ (Ne.symm hne)]

theorem mergeList_fix (b res : List (String × Json))
    (h : ∀ kv ∈ b, mergeStep res kv.1 kv.2 = res) : mergeList res b = res := by
  induction b with
  | nil => rw [mergeList]
  | cons hd tl ih =>
    obtain ⟨k0, v0⟩ := hd
    rw [mergeList, h (k0, v0) (by simp),
      ih (fun kv hkv => h kv (List.mem_cons_of_mem _ hkv))]

theorem wfObjs_obj (kvs : List (String × Json)) :
    Json.wfObjs (.obj kvs) = (nodupKeys kvs && wfList kvs) := by
  simp [Json.wfObjs]

theorem wfList_mem (b : List (String × Json)) (k : String) (v : Json)
    (hw : wfList b = true) (hmem : (k, v) ∈ b) : v.wfObjs = true := by
  induction b with
  | nil => simp at hmem
  | cons hd tl ih =>
    obtain ⟨k0, v0⟩ := hd
    simp only [wfList, Bool.and_eq_true] at hw
    rcases List.mem_cons.mp hmem with heq | hmem2
    · obtain ⟨h1, h2⟩ := Prod.mk.injEq .. ▸ heq
      subst h2; exact hw.1
    · exact ih hw.2 hmem2

theorem sizeOf_snd_lt_of_mem (b : List (String × Json)) (k : String) (v : Json)
    (hmem : (k, v) ∈ b) : sizeOf v < sizeOf b := by
  have h1 := List.sizeOf_lt_of_mem hmem
  have h2 : sizeOf (k, v) = 1 + sizeOf k + sizeOf v := rfl
  omega

theorem deep_merge_nonobj (u v : Json) (h : (∀ a, u ≠ Json.obj a) ∨ (∀ b, v ≠ Json.obj b)) :
    deep_merge u v = v := by
  cases u <;> cases v <;> first
    | (rcases h with h | h
       · exact absurd rfl (h _)
       · exact absurd rfl (h _))
    | simp [deep_merge]

theorem deep_merge_obj (a b : List (String × Json)) :
    deep_merge (.obj a) (.obj b) = .obj (mergeList a b) := by
  simp [deep_merge]

/-- Fuel-based simultaneous induction: merging a well-formed dict into
itself is the identity. -/
theorem merge_self_aux : ∀ n : Nat,
    (∀ v : Json, sizeOf v < n → v.wfObjs = true → deep_merge v v = v) ∧
    (∀ b : List (String × Json), sizeOf b < n → nodupKeys b = true → wfList b = true →
       mergeList b b = b) := by
  intro n
  induction n with
  | zero => exact ⟨fun v hv => absurd hv (by omega), fun b hb => absurd hb (by omega)⟩
  | succ n ih =>
    constructor
    · intro v hv hwf
      cases v with
      | obj kvs =>
          rw [wfObjs_obj, Bool.and_eq_true] at hwf
          have hspec : sizeOf (Json.obj kvs) = 1 + sizeOf kvs := by simp
          have hsz : sizeOf kvs < n := by omega
          rw [deep_merge_obj, ih.2 kvs hsz hwf.1 hwf.2]
      | null => exact deep_merge_nonobj _ _ (Or.inl (fun a h => Json.noConfusion h))
      | bool x => exact deep_merge_nonobj _ _ (Or.inl (fun a h => Json.noConfusion h))
      | num x => exact deep_merge_nonobj _ _ (Or.inl (fun a h => Json.noConfusion h))
      | str x => exact deep_merge_nonobj _ _ (Or.inl (fun a h => Json.noConfusion h))
      | arr x => exact deep_merge_nonobj _ _ (Or.inl (fun a h => Json.noConfusion h))
    · intro b hb hnd hw
      apply mergeList_fix
      intro kv hkv
      obtain ⟨k, v⟩ := kv
      have hlk : lookupKey b k = some v := lookupKey_of_mem_nodup b k v hnd hkv
      have hlt : sizeOf v < n := by
        have h1 := sizeOf_snd_lt_of_mem b k v hkv
        omega
      have hwfv : v.wfObjs = true := wfList_mem b k v hw hkv
      rw [mergeStep_eq, hlk]
      have hval : mergeValue (some v) v = v := by
        cases v with
        | obj vb => simpa [mergeValue] using ih.1 (.obj vb) hlt hwfv
        | null => simp [mergeValue]
        | bool x => simp [mergeValue]
        | num x => simp [mergeValue]
        | str x => simp [mergeValue]
        | arr x => simp [mergeValue]
      rw [hval, setKey_of_lookupKey_eq _ _ _ hlk]

/-- Merging a well-formed dict into itself is the identity. -/
theorem deep_merge_self (v : Json) (hv : v.wfObjs = true) : deep_merge v v = v :=
  (merge_self_aux (sizeOf v + 1)).1 v (by omega) hv

/-- Fuel-based simultaneous induction: a second merge of the same
well-formed patch is absorbed. -/
theorem merge_absorb_aux : ∀ n : Nat,
    (∀ (u v : Json), sizeOf v < n → v.wfObjs = true →
       deep_merge (deep_merge u v) v = deep_merge u v) ∧
    (∀ (a b : List (String × Json)), sizeOf b < n → nodupKeys b = true → wfList b = true →
       mergeList (mergeList a b) b = mergeList a b) := by
  intro n
  induction n with
  | zero => exact ⟨fun u v hv => absurd hv (by omega), fun a b hb => absurd hb (by omega)⟩
  | succ n ih =>
    have nonobjNull : ∀ a : List (String × Json), Json.null ≠ Json.obj a :=
      fun a h => Json.noConfusion h
    constructor
    · intro u v hv hwf
      cases v with
      | obj vb =>
        cases u with
        | obj ua =>
            have hspec : sizeOf (Json.obj vb) = 1 + sizeOf vb := by simp
            rw [wfObjs_obj, Bool.and_eq_true] at hwf
            rw [deep_merge_obj, deep_merge_obj]
            exact congrArg Json.obj (ih.2 ua vb (by omega) hwf.1 hwf.2)
        | null =>
            rw [deep_merge_nonobj (Json.null) (Json.obj vb)
              (Or.inl (fun a h => Json.noConfusion h))]
            exact deep_merge_self _ hwf
        | bool x =>
            rw [deep_merge_nonobj (Json.bool x) (Json.obj vb)
              (Or.inl (fun a h => Json.noConfusion h))]
            exact deep_merge_self _ hwf
        | num x =>
            rw [deep_merge_nonobj (Json.num x) (Json.obj vb)
              (Or.inl (fun a h => Json.noConfusion h))]
            exact deep_merge_self _ hwf
        | str x =>
            rw [deep_merge_nonobj (Json.str x) (Json.obj vb)
              (Or.inl (fun a h => Json.noConfusion h))]
            exact deep_merge_self _ hwf
        | arr x =>
            rw [deep_merge_nonobj (Json.arr x) (Json.obj vb)
              (Or.inl (fun a h => Json.noConfusion h))]
            exact deep_merge_self _ hwf
      | null =>
          rw [deep_merge_nonobj u _ (Or.inr nonobjNull),
            deep_merge_nonobj _ _ (Or.inr nonobjNull)]
      | bool x =>
          rw [deep_merge_nonobj u _ (Or.inr (fun a h => Json.noConfusion h)),
            deep_merge_nonobj _ _ (Or.inr (fun a h => Json.noConfusion h))]
      | num x =>
          rw [deep_merge_nonobj u _ (Or.inr (fun a h => Json.noConfusion h)),
            deep_merge_nonobj _ _ (Or.inr (fun a h => Json.noConfusion h))]
      | str x =>
          rw [deep_merge_nonobj u _ (Or.inr (fun a h => Json.noConfusion h)),
            deep_merge_nonobj _ _ (Or.inr (fun a h => Json.noConfusion h))]
      | arr x =>
          rw [deep_merge_nonobj u _ (Or.inr (fun a h => Json.noConfusion h)),
            deep_merge_nonobj _ _ (Or.inr (fun a h => Json.noConfusion h))]
    · intro a b hb hnd hw
      apply mergeList_fix
      intro kv hkv
      obtain ⟨k, v⟩ := kv
      have hRk : lookupKey (mergeList a b) k = some (mergeValue (lookupKey a k) v) :=
        lookupKey_mergeList_mem b a k v hnd hkv
      have hlt : sizeOf v < n := by
        have h1 := sizeOf_snd_lt_of_mem b k v hkv
        omega
      have hwfv : v.wfObjs = true := wfList_mem b k v hw hkv
      rw [mergeStep_eq, hRk]
      have hmv : mergeValue (some (mergeValue (lookupKey a k) v)) v
          = mergeValue (lookupKey a k) v := by
        cases v with
        | obj vb =>
          rcases hla : lookupKey a k with _ | j
          · simpa [mergeValue] using deep_merge_self (.obj vb) hwfv
          · cases j with
            | obj ra =>
                have habs := ih.1 (.obj ra) (.obj vb) hlt hwfv
                rw [deep_merge_obj, deep_merge_obj] at habs
                simpa [mergeValue, deep_merge_obj] using habs
            | null => simpa [mergeValue] using deep_merge_self (.obj vb) hwfv
            | bool x => simpa [mergeValue] using deep_merge_self (.obj vb) hwfv
            | num x => simpa [mergeValue] using deep_merge_self (.obj vb) hwfv
            | str x => simpa [mergeValue] using deep_merge_self (.obj vb) hwfv
            | arr x => simpa [mergeValue] using deep_merge_self (.obj vb) hwfv
        | null =>
            rw [mergeValue_nonobj _ _ nonobjNull, mergeValue_nonobj _ _ nonobjNull]
        | bool x =>
            rw [mergeValue_nonobj _ _ (fun vb h => Json.noConfusion h),
              mergeValue_nonobj _ _ (fun vb h => Json.noConfusion h)]
        | num x =>
            rw [mergeValue_nonobj _ _ (fun vb h => Json.noConfusion h),
              mergeValue_nonobj _ _ (fun vb h => Json.noConfusion h)]
        | str x =>
            rw [mergeValue_nonobj _ _ (fun vb h => Json.noConfusion h),
              mergeValue_nonobj _ _ (fun vb h => Json.noConfusion h)]
        | arr x =>
            rw [mergeValue_nonobj _ _ (fun vb h => Json.noConfusion h),
              mergeValue_nonobj _ _ (fun vb h => Json.noConfusion h)]
      rw [hmv, setKey_of_lookupKey_eq _ _ _ hRk]

/-- A second `deep_merge` of the same well-formed patch is absorbed. -/
theorem deep_merge_absorb (u v : Json) (hv : v.wfObjs = true) :
    deep_merge (deep_merge u v) v = deep_merge u v :=
  (merge_absorb_aux (sizeOf v + 1)).1 u v (by omega) hv

/-! ## Claim theorems -/

/-- C1: Early-rejection short-circuit — for every folder in status
`UNDER_AUDIT` or `AUDIT_COMPLETED`, a `SubmitAuditReport` call by an
assigned auditor whose decision maps to `REJECTED` succeeds and leaves the
folder in `AUDIT_COMPLETED` immediately, with no condition on how many of
the other assignments are still pending. -/
theorem c1_early_rejection_short_circuit
    (f : Folder) (user : Nat) (remarks dv : String) (ratings : Json)
    (ffile gpdf : Option String)
    (hst : f.status = Status.UNDER_AUDIT ∨ f.status = Status.AUDIT_COMPLETED)
    (hassigned : ∃ a ∈ f.audit_assignments, a.auditor = user)
    (hremarks : remarks ≠ "")
    (hdv : dv ∈ rejectDecisionVals) :
    ∃ f' s t, submit_audit_report f true user remarks (some dv) ratings ffile gpdf
        = Except.ok (f', s, t) ∧ f'.status = Status.AUDIT_COMPLETED := by
  obtain ⟨a0, ha0, hau⟩ := hassigned
  have hsome : (f.audit_assignments.find? (fun x => x.auditor == user)).isSome := by
    rw [List.find?_isSome]
    exact ⟨a0, ha0, by simp [hau]⟩
  obtain ⟨asg, hfind⟩ := Option.isSome_iff_exists.mp hsome
  have hdec : applyDecision (some dv) asg.decision = Decision.REJECTED := by
    fin_cases hdv <;> simp [applyDecision, approveDecisionVals, rejectDecisionVals]
  unfold submit_audit_report
  rw [hfind]
  rcases hst with hst | hst <;>
    simp [hst, audit_blocked_statuses, hremarks, hdec, submitAuditUpdate]

/-- Witness for C1: in a folder under audit with three assignments, two of
them still pending, auditor 2's rejection completes the audit at once. -/
theorem c1_early_rejection_short_circuit_witness :
    ∃ f' s t, submit_audit_report folderUnderAudit true 2 "bad folder" (some "reject")
        (.obj []) none none = Except.ok (f', s, t) ∧ f'.status = Status.AUDIT_COMPLETED :=
  c1_early_rejection_short_circuit folderUnderAudit 2 "bad folder" "reject" (.obj []) none none
    (Or.inl rfl) ⟨aud 2, by simp [folderUnderAudit], rfl⟩ (by decide) (by decide)

/-- C2: Full-consensus completion — from `UNDER_AUDIT`, an approving
submission by an assigned auditor succeeds, the response counts are
recomputed from the persisted assignment rows after the save, and the
folder reaches `AUDIT_COMPLETED` exactly when those recomputed counts show
every assignment submitted (so with all approvals it completes exactly at
the Nth submission, never earlier). -/
theorem c2_full_consensus_completion
    (f : Folder) (user : Nat) (remarks dv : String) (ratings : Json)
    (ffile gpdf : Option String)
    (hst : f.status = Status.UNDER_AUDIT)
    (hassigned : ∃ a ∈ f.audit_assignments, a.auditor = user)
    (hremarks : remarks ≠ "")
    (hdv : dv ∈ approveDecisionVals) :
    ∃ f' s t, submit_audit_report f true user remarks (some dv) ratings ffile gpdf
        = Except.ok (f', s, t) ∧
      s = (f'.audit_assignments.filter (fun a => a.feedback_submitted)).length ∧
      t = f'.audit_assignments.length ∧
      0 < t ∧
      (f'.status = Status.AUDIT_COMPLETED ↔ s = t) ∧
      (s ≠ t → f'.status = Status.UNDER_AUDIT) := by
  obtain ⟨a0, ha0, hau⟩ := hassigned
  have hsome : (f.audit_assignments.find? (fun x => x.auditor == user)).isSome := by
    rw [List.find?_isSome]
    exact ⟨a0, ha0, by simp [hau]⟩
  obtain ⟨asg, hfind⟩ := Option.isSome_iff_exists.mp hsome
  have hdec : applyDecision (some dv) asg.decision = Decision.APPROVED := by
    fin_cases hdv <;> simp [applyDecision, approveDecisionVals, rejectDecisionVals]
  have hpos : 0 < f.audit_assignments.length := List.length_pos_of_mem ha0
  have h1 : audit_blocked_statuses.contains f.status = false := by rw [hst]; rfl
  have h2 : ([Status.UNDER_AUDIT, Status.AUDIT_COMPLETED].contains f.status) = true := by
    rw [hst]; rfl
  have h3 : (remarks == "") = false := by simpa using hremarks
  have hud : (submitAuditUpdate asg remarks (some dv) ratings ffile gpdf).decision
      = Decision.APPROVED := by
    simp [submitAuditUpdate, hdec]
  unfold submit_audit_report
  rw [hfind, h1, h2, h3]
  simp only [Bool.not_true, Bool.false_eq_true, if_false, hud, reduceIte, hst, ite_self,
    show (Status.UNDER_AUDIT != Status.AUDIT_COMPLETED) = true from rfl,
    show (Decision.APPROVED == Decision.REJECTED) = false from rfl]
  split
  · rename_i hcond
    rw [Bool.and_eq_true] at hcond
    have hseq := eq_of_beq hcond.2
    refine ⟨_, _, _, rfl, rfl, rfl, ?_, ?_, ?_⟩
    · simpa using hpos
    · exact ⟨fun _ => hseq, fun _ => rfl⟩
    · intro hne
      exact absurd hseq hne
  · rename_i hcond
    simp only [Bool.and_eq_true, not_and] at hcond
    have hposL : 0 < (List.map (fun a => if (a.auditor == user) = true
        then submitAuditUpdate asg remarks (some dv) ratings ffile gpdf else a)
        f.audit_assignments).length := by simpa using hpos
    have hBne := hcond (decide_eq_true hposL)
    have hne : (List.filter (fun a => a.feedback_submitted)
        (List.map (fun a => if (a.auditor == user) = true
          then submitAuditUpdate asg remarks (some dv) ratings ffile gpdf else a)
          f.audit_assignments)).length
        ≠ (List.map (fun a => if (a.auditor == user) = true
          then submitAuditUpdate asg remarks (some dv) ratings ffile gpdf else a)
          f.audit_assignments).length := by
      intro heq
      rw [heq] at hBne
      exact hBne (by simp)
    refine ⟨_, _, _, rfl, rfl, rfl, hposL, ?_, fun _ => rfl⟩
    exact ⟨fun hco => absurd (show Status.UNDER_AUDIT = Status.AUDIT_COMPLETED from hco)
      (by decide), fun heq => absurd heq hne⟩

/-- Witness for C2: with two auditors of which the first has already
approved, the second approval is the Nth submission and completes the
audit; the counts come from the updated assignment rows. -/
theorem c2_full_consensus_completion_witness :
    ∃ f' s t, submit_audit_report folderOneApproved true 2 "ok" (some "approve")
        (.obj []) none none = Except.ok (f', s, t) ∧
      s = (f'.audit_assignments.filter (fun a => a.feedback_submitted)).length ∧
      t = f'.audit_assignments.length ∧
      0 < t ∧
      (f'.status = Status.AUDIT_COMPLETED ↔ s = t) ∧
      (s ≠ t → f'.status = Status.UNDER_AUDIT) :=
  c2_full_consensus_completion folderOneApproved 2 "ok" "approve" (.obj []) none none rfl
    ⟨aud 2, by simp [folderOneApproved], rfl⟩ (by decide) (by decide)

/-- C9: audit decisions are frozen once the folder has reached
`SUBMITTED_TO_HOD` / `APPROVED_BY_HOD` / `REJECTED_BY_HOD` — every
`SubmitAuditReport` call then fails and the folder (including every
assignment row) is unchanged; while the folder is still `UNDER_AUDIT` or
`AUDIT_COMPLETED`, a re-submission by the assigned auditor succeeds and
overwrites the stored decision and remarks (last write wins). -/
theorem c9_audit_frozen_after_escalation :
    (∀ (f : Folder) (access : Bool) (user : Nat) (remarks : String) (dv : Option String)
       (ratings : Json) (ffile gpdf : Option String),
       audit_blocked_statuses.contains f.status = true →
       (∃ e, submit_audit_report f access user remarks dv ratings ffile gpdf = Except.error e) ∧
       runOp f (.opSubmitAuditReport access user remarks dv ratings ffile gpdf) = f) ∧
    (∀ (f : Folder) (user : Nat) (remarks dv : String) (ratings : Json)
       (ffile gpdf : Option String) (asg : AuditAssignment),
       (f.status = Status.UNDER_AUDIT ∨ f.status = Status.AUDIT_COMPLETED) →
       f.audit_assignments.find? (fun a => a.auditor == user) = some asg →
       remarks ≠ "" →
       ∃ f' s t, submit_audit_report f true user remarks (some dv) ratings ffile gpdf
           = Except.ok (f', s, t) ∧
         ∀ a' ∈ f'.audit_assignments, a'.auditor = user →
           a'.feedback_submitted = true ∧ a'.remarks = remarks ∧
           a'.decision = applyDecision (some dv) asg.decision ∧
           (dv ∈ approveDecisionVals → a'.decision = Decision.APPROVED) ∧
           (dv ∈ rejectDecisionVals → a'.decision = Decision.REJECTED)) := by
  constructor
  · intro f access user remarks dv ratings ffile gpdf hblocked
    have herr : ∃ e, submit_audit_report f access user remarks dv ratings ffile gpdf
        = Except.error e := by
      cases access
      · exact ⟨"Only audit team members can submit reports", rfl⟩
      · rcases hf : f.audit_assignments.find? (fun a => a.auditor == user) with _ | asg
        · refine ⟨"You are not assigned to audit this folder", ?_⟩
          unfold submit_audit_report
          rw [hf]
          rfl
        · refine ⟨"This folder has already been reviewed by HOD (approved or rejected). You cannot change your audit decision at this stage.", ?_⟩
          unfold submit_audit_report
          rw [hf, hblocked]
          rfl
    refine ⟨herr, ?_⟩
    obtain ⟨e, he⟩ := herr
    dsimp only [runOp]
    rw [he]
  · intro f user remarks dv ratings ffile gpdf asg hst hfind hremarks
    have h1 : audit_blocked_statuses.contains f.status = false := by
      rcases hst with h | h <;> rw [h] <;> rfl
    have h2 : ([Status.UNDER_AUDIT, Status.AUDIT_COMPLETED].contains f.status) = true := by
      rcases hst with h | h <;> rw [h] <;> rfl
    have h3 : (remarks == "") = false := by simpa using hremarks
    have hprop : ∀ a' ∈ List.map (fun a => if (a.auditor == user) = true
        then submitAuditUpdate asg remarks (some dv) ratings ffile gpdf else a)
        f.audit_assignments,
        a'.auditor = user →
        a'.feedback_submitted = true ∧ a'.remarks = remarks ∧
        a'.decision = applyDecision (some dv) asg.decision ∧
        (dv ∈ approveDecisionVals → a'.decision = Decision.APPROVED) ∧
        (dv ∈ rejectDecisionVals → a'.decision = Decision.REJECTED) := by
      intro a' ha' hau
      obtain ⟨a, ha, rfl⟩ := List.mem_map.mp ha'
      by_cases hc : (a.auditor == user) = true
      · rw [if_pos hc] at hau ⊢
        refine ⟨rfl, rfl, rfl, ?_, ?_⟩
        · intro hmem
          show applyDecision (some dv) asg.decision = Decision.APPROVED
          fin_cases hmem <;> rfl
        · intro hmem
          show applyDecision (some dv) asg.decision = Decision.REJECTED
          fin_cases hmem <;> rfl
      · rw [if_neg hc] at hau ⊢
        exact absurd (by simp [hau]) hc
    unfold submit_audit_report
    rw [hfind, h1, h2, h3]
    simp only [Bool.not_true, Bool.false_eq_true, if_false, ite_self]
    split
    · exact ⟨_, _, _, rfl, hprop⟩
    · split
      · exact ⟨_, _, _, rfl, hprop⟩
      · exact ⟨_, _, _, rfl, hprop⟩

/-- Witness for C9: at `SUBMITTED_TO_HOD` a re-submission fails and the
folder is untouched; at `UNDER_AUDIT` auditor 1 overwrites their earlier
`APPROVED` decision with `REJECTED`. -/
theorem c9_audit_frozen_after_escalation_witness :
    ((∃ e, submit_audit_report folderAtHod true 1 "retry" (some "approve") (Json.obj []) none none
        = Except.error e) ∧
     runOp folderAtHod (.opSubmitAuditReport true 1 "retry" (some "approve") (Json.obj []) none none)
        = folderAtHod) ∧
    (∃ f' s t, submit_audit_report folderOneApproved true 1 "changed" (some "reject") (Json.obj []) none none
        = Except.ok (f', s, t) ∧
      ∀ a' ∈ f'.audit_assignments, a'.auditor = 1 →
        a'.feedback_submitted = true ∧ a'.remarks = "changed" ∧
        a'.decision = applyDecision (some "reject")
          ({ aud 1 with feedback_submitted := true, decision := Decision.APPROVED } : AuditAssignment).decision ∧
        ("reject" ∈ approveDecisionVals → a'.decision = Decision.APPROVED) ∧
        ("reject" ∈ rejectDecisionVals → a'.decision = Decision.REJECTED)) :=
  ⟨c9_audit_frozen_after_escalation.1 folderAtHod true 1 "retry" (some "approve")
      (Json.obj []) none none rfl,
   c9_audit_frozen_after_escalation.2 folderOneApproved 1 "changed" "reject"
      (Json.obj []) none none _ (Or.inl rfl) rfl (by decide)⟩

/-- Every workflow operation keeps `first_activity_completed` at `true`
once it is `true`: no handler ever writes `false` to it (only
`hod_final_decision(approve)` writes it, and only to `true`). -/
theorem runOp_preserves_flag (f : Folder) (op : Op)
    (h : f.first_activity_completed = true) :
    (runOp f op).first_activity_completed = true := by
  cases op with
  | opSubmit o c =>
      dsimp only [runOp]
      rcases hr : submit f o c with e | f'
      · simpa [Except.toOption] using h
      · simp only [Except.toOption, Option.getD]
        unfold submit at hr
        repeat' first
          | split at hr
          | dsimp only [] at hr
        all_goals first
          | exact Except.noConfusion hr
          | (injection hr with h2; subst h2; simp [h])
  | opCoordinatorReview ic u a n =>
      dsimp only [runOp]
      rcases hr : coordinator_review f ic u a n with e | f'
      · simpa [Except.toOption] using h
      · simp only [Except.toOption, Option.getD]
        unfold coordinator_review at hr
        repeat' first
          | split at hr
          | dsimp only [] at hr
        all_goals first
          | exact Except.noConfusion hr
          | (injection hr with h2; subst h2; simp [h])
  | opAssignAudit ic asg ids us =>
      dsimp only [runOp]
      rcases hr : assign_audit f ic asg ids us with e | f'
      · simpa [Except.toOption] using h
      · simp only [Except.toOption, Option.getD]
        unfold assign_audit at hr
        repeat' first
          | split at hr
          | dsimp only [] at hr
        all_goals first
          | exact Except.noConfusion hr
          | (injection hr with h2; subst h2; simp [h])
  | opUnassignAudit ic =>
      dsimp only [runOp]
      rcases hr : unassign_audit f ic with e | f'
      · simpa [Except.toOption] using h
      · simp only [Except.toOption, Option.getD]
        unfold unassign_audit at hr
        repeat' first
          | split at hr
          | dsimp only [] at hr
        all_goals first
          | exact Except.noConfusion hr
          | (injection hr with h2; subst h2; simp [h])
  | opSubmitAuditReport acc u ofb dvv r ff gp =>
      dsimp only [runOp]
      rcases hr : submit_audit_report f acc u ofb dvv r ff gp with e | trip
      · exact h
      · obtain ⟨f', s, t⟩ := trip
        show f'.first_activity_completed = true
        unfold submit_audit_report at hr
        repeat' first
          | split at hr
          | dsimp only [] at hr
        all_goals first
          | exact Except.noConfusion hr
          | (injection hr with h2; injection h2 with h3 h4; subst h3; simp [h])
  | opConvenerReview ic a n =>
      dsimp only [runOp]
      rcases hr : convener_review f ic a n with e | f'
      · simpa [Except.toOption] using h
      · simp only [Except.toOption, Option.getD]
        unfold convener_review at hr
        repeat' first
          | split at hr
          | dsimp only [] at hr
        all_goals first
          | exact Except.noConfusion hr
          | (injection hr with h2; subst h2; simp [h])
  | opHodFinalDecision ih u d n fb =>
      dsimp only [runOp]
      rcases hr : hod_final_decision f ih u d n fb with e | f'
      · simpa [Except.toOption] using h
      · simp only [Except.toOption, Option.getD]
        unfold hod_final_decision at hr
        repeat' first
          | split at hr
          | dsimp only [] at hr
        all_goals first
          | exact Except.noConfusion hr
          | (injection hr with h2; subst h2; simp [h])
  | opSaveContent o p s =>
      dsimp only [runOp]
      rcases hr : save_outline f o p s with e | f'
      · simpa [Except.toOption] using h
      · simp only [Except.toOption, Option.getD]
        unfold save_outline at hr
        repeat' first
          | split at hr
          | dsimp only [] at hr
        all_goals first
          | exact Except.noConfusion hr
          | (injection hr with h2; subst h2; simp [h])

/-- C3: the completion flag `first_activity_completed` is monotonic — no
sequence of workflow operations resets it once true — and
`HodFinalDecision(approve)` from an allowed status always leaves it
`true` (setting it on the first approval only). -/
theorem c3_checkpoint_flag_monotonic :
    (∀ (ops : List Op) (f : Folder), f.first_activity_completed = true →
       (ops.foldl runOp f).first_activity_completed = true) ∧
    (∀ (f : Folder) (user : Nat) (notes fb : String),
       hod_allowed_statuses.contains f.status = true →
       ∃ f', hod_final_decision f true user "approve" notes fb = Except.ok f' ∧
         f'.first_activity_completed = true) := by
  constructor
  · intro ops
    induction ops with
    | nil => intro f h; exact h
    | cons op rest ih =>
        intro f h
        exact ih (runOp f op) (runOp_preserves_flag f op h)
  · intro f user notes fb hallowed
    unfold hod_final_decision
    rw [hallowed]
    cases hfa : f.first_activity_completed <;>
      simp [hfa]

/-- Witness for C3: a concrete operation sequence on a folder with the
flag set keeps it set, and a concrete HOD approval sets it. -/
theorem c3_checkpoint_flag_monotonic_witness :
    (([Op.opSaveContent true (some patch0) none,
       Op.opSubmit true true,
       Op.opHodFinalDecision true 7 "reject" "" ""].foldl runOp
        { folderAtHod with first_activity_completed := true }).first_activity_completed = true) ∧
    (∃ f', hod_final_decision folderAtHod true 7 "approve" "ok" "fb" = Except.ok f' ∧
       f'.first_activity_completed = true) :=
  ⟨c3_checkpoint_flag_monotonic.1 _ _ rfl,
   c3_checkpoint_flag_monotonic.2 folderAtHod 7 "ok" "fb" rfl⟩

/-- Counterexample for C4: `folderValidDraft` fails the read-only
`check_completeness` probe (no uploaded components), yet `Submit` moves it
from `DRAFT` to `SUBMITTED` — the probe does not gate submission. -/
theorem c4_counterexample :
    (check_completeness folderValidDraft).1 = false ∧
    folderValidDraft.status = Status.DRAFT ∧
    (runOp folderValidDraft (.opSubmit true true)).status = Status.SUBMITTED := by
  refine ⟨rfl, rfl, ?_⟩
  rfl

/-- C4 (amended): `Submit` is gated by `_validate_submission_requirements`,
not by `check_completeness` — when the validator fails, the folder is
unchanged; when `Submit` succeeds the validator passed, the status becomes
`SUBMITTED` and the `check_completeness` verdict is merely recorded in
`is_complete`. -/
theorem c4_submit_gated_by_validator (f : Folder) (is_owner coordinator_exists : Bool) :
    ((validate_submission_requirements f).1 = false →
       runOp f (.opSubmit is_owner coordinator_exists) = f) ∧
    (∀ f', submit f is_owner coordinator_exists = Except.ok f' →
       (validate_submission_requirements f).1 = true ∧ f'.status = Status.SUBMITTED ∧
       f'.is_complete = (check_completeness f).1) := by
  constructor
  · intro hv
    dsimp only [runOp]
    rcases hr : submit f is_owner coordinator_exists with e | f'
    · simp [Except.toOption]
    · unfold submit at hr
      rw [hv] at hr
      simp only [Bool.not_false, reduceIte] at hr
      repeat' first
        | split at hr
        | dsimp only [] at hr
      all_goals exact Except.noConfusion hr
  · intro f' hr
    cases hV : (validate_submission_requirements f).1 with
    | false =>
        unfold submit at hr
        rw [hV] at hr
        simp only [Bool.not_false, reduceIte] at hr
        repeat' first
          | split at hr
          | dsimp only [] at hr
        all_goals exact Except.noConfusion hr
    | true =>
        unfold submit at hr
        rw [hV] at hr
        simp only [Bool.not_true, Bool.false_eq_true, if_false] at hr
        repeat' first
          | split at hr
          | dsimp only [] at hr
        all_goals first
          | exact Except.noConfusion hr
          | (injection hr with h2
             subst h2
             exact ⟨rfl, rfl, rfl⟩)

/-- Witness for C4 (amended): the empty draft fails the validator and is
left unchanged; `folderValidDraft` passes it and gets `SUBMITTED` with the
failing `check_completeness` verdict recorded. -/
theorem c4_submit_gated_by_validator_witness :
    runOp folder0 (.opSubmit true true) = folder0 ∧
    ∃ f', submit folderValidDraft true true = Except.ok f' ∧
      (validate_submission_requirements folderValidDraft).1 = true ∧
      f'.status = Status.SUBMITTED ∧
      f'.is_complete = (check_completeness folderValidDraft).1 :=
  ⟨(c4_submit_gated_by_validator folder0 true true).1 rfl,
   ⟨_, rfl, (c4_submit_gated_by_validator folderValidDraft true true).2 _ rfl⟩⟩

/-- Counterexample for C10: with the empty-string section key the write is
NOT stored under that top-level key — Python's truthiness test on
`section` routes it to the whole-document merge instead, so the claim read
over every string fails at `""`. -/
theorem c10_counterexample :
    (runOp folder0 (.opSaveContent true (some (Json.obj [("x", Json.num 1)])) (some ""))).outline_content.getOpt ""
      = none ∧
    ((Json.setTop (pyOr folder0.outline_content (Json.obj [])) ""
        (sectionValue (incomingOf (Json.obj [("x", Json.num 1)])) "")).getOpt "").isSome = true ∧
    (runOp folder0 (.opSaveContent true (some (Json.obj [("x", Json.num 1)])) (some ""))).outline_content
      = Json.obj [("x", Json.num 1)] := by
  have hm : deep_merge (Json.obj []) (Json.obj [("x", Json.num 1)]) = Json.obj [("x", Json.num 1)] := by
    simp [deep_merge, mergeList, mergeStep, setKey, lookupKey]
  refine ⟨?_, rfl, ?_⟩
  · show (deep_merge (Json.obj []) (Json.obj [("x", Json.num 1)])).getOpt "" = none
    rw [hm]
    rfl
  · show deep_merge (Json.obj []) (Json.obj [("x", Json.num 1)]) = Json.obj [("x", Json.num 1)]
    exact hm

/-- C10 (amended): for every NON-EMPTY section string — member of the
in-code allow-list or not — the section-scoped write stores the supplied
value under that top-level key of the content document; the allow-list
has no restricting effect (both branches perform the identical
assignment). -/
theorem c10_section_allowlist_no_effect (f : Folder) (payload : Json) (s : String)
    (hedit : (allowed_edit_statuses.contains f.status ||
              (f.status == Status.APPROVED_BY_HOD && f.first_activity_completed)) = true)
    (hs : s ≠ "") :
    ∃ f', save_outline f true (some payload) (some s) = Except.ok f' ∧
      f'.outline_content = (pyOr f.outline_content (Json.obj [])).setTop s
        (sectionValue (incomingOf payload) s) ∧
      f'.outline_snapshots = pyOr f.outline_content (Json.obj []) :: f.outline_snapshots := by
  have hg : (!(allowed_edit_statuses.contains f.status) &&
      !(f.status == Status.APPROVED_BY_HOD && f.first_activity_completed)) = false := by
    cases h1 : allowed_edit_statuses.contains f.status <;>
      cases h2 : (f.status == Status.APPROVED_BY_HOD && f.first_activity_completed) <;>
      simp_all
  have hsne : (s != "") = true := by simpa using hs
  unfold save_outline
  rw [hg]
  simp only [Bool.not_true, Bool.false_eq_true, if_false, reduceIte]
  rw [hsne]
  simp only [reduceIte, ite_self]
  exact ⟨_, rfl, rfl, rfl⟩

/-- Witness for C10 (amended): a key far outside the documented section
set is stored all the same. -/
theorem c10_section_allowlist_no_effect_witness :
    ∃ f', save_outline { folder0 with outline_content := doc0 } true
        (some (Json.obj [("weird", Json.num 7)])) (some "weirdSection") = Except.ok f' ∧
      f'.outline_content = (pyOr ({ folder0 with outline_content := doc0 } : Folder).outline_content
        (Json.obj [])).setTop "weirdSection"
        (sectionValue (incomingOf (Json.obj [("weird", Json.num 7)])) "weirdSection") ∧
      f'.outline_snapshots = pyOr ({ folder0 with outline_content := doc0 } : Folder).outline_content
        (Json.obj []) :: ({ folder0 with outline_content := doc0 } : Folder).outline_snapshots :=
  c10_section_allowlist_no_effect { folder0 with outline_content := doc0 }
    (Json.obj [("weird", Json.num 7)]) "weirdSection" rfl (by decide)

theorem pyOr_obj (kvs : List (String × Json)) :
    pyOr (Json.obj kvs) (Json.obj []) = Json.obj kvs := by
  cases kvs <;> simp [pyOr, Json.truthy]

theorem incomingOf_isObj (p : Json) : ∃ kvs, incomingOf p = Json.obj kvs := by
  cases p <;> exact ⟨_, rfl⟩

theorem wfObjs_incomingOf (p : Json) (h : p.wfObjs = true) :
    (incomingOf p).wfObjs = true := by
  cases p <;> first
    | exact h
    | simp [incomingOf, Json.wfObjs, wfList, nodupKeys]

theorem deep_merge_to_obj (u : Json) (b : List (String × Json)) :
    ∃ kvs, deep_merge u (Json.obj b) = Json.obj kvs := by
  cases u with
  | obj a => exact ⟨mergeList a b, deep_merge_obj a b⟩
  | null => exact ⟨b, deep_merge_nonobj _ _ (Or.inl (fun a h => Json.noConfusion h))⟩
  | bool x => exact ⟨b, deep_merge_nonobj _ _ (Or.inl (fun a h => Json.noConfusion h))⟩
  | num x => exact ⟨b, deep_merge_nonobj _ _ (Or.inl (fun a h => Json.noConfusion h))⟩
  | str x => exact ⟨b, deep_merge_nonobj _ _ (Or.inl (fun a h => Json.noConfusion h))⟩
  | arr x => exact ⟨b, deep_merge_nonobj _ _ (Or.inl (fun a h => Json.noConfusion h))⟩

/-- A whole-document `SaveContent` under a passing edit guard: snapshot
the prior document, then deep-merge the incoming patch. -/
theorem save_outline_whole (f : Folder) (patch : Json)
    (hg : (!(allowed_edit_statuses.contains f.status) &&
      !(f.status == Status.APPROVED_BY_HOD && f.first_activity_completed)) = false) :
    save_outline f true (some patch) none = Except.ok
      { f with
        outline_content := deep_merge (pyOr f.outline_content (Json.obj [])) (incomingOf patch)
        outline_snapshots := pyOr f.outline_content (Json.obj []) :: f.outline_snapshots } := by
  unfold save_outline
  rw [hg]
  simp only [Bool.not_true, Bool.false_eq_true, if_false, reduceIte]

/-- C8: the whole-document merge is recursive on keys whose values are
dicts on both sides and replaces every other value wholesale, and
`SaveContent` applied twice with the same well-formed patch yields the
same document as applying it once, while appending a snapshot of the
prior document on each call. -/
theorem c8_deep_merge_semantics_and_idempotence :
    (∀ (a b : List (String × Json)) (k : String) (ra vb : List (String × Json)),
       nodupKeys b = true → lookupKey a k = some (Json.obj ra) → (k, Json.obj vb) ∈ b →
       lookupKey (mergeList a b) k = some (deep_merge (Json.obj ra) (Json.obj vb))) ∧
    (∀ (a b : List (String × Json)) (k : String) (v : Json),
       nodupKeys b = true → (k, v) ∈ b →
       ((∀ vb, v ≠ Json.obj vb) ∨ (∀ ra, lookupKey a k ≠ some (Json.obj ra))) →
       lookupKey (mergeList a b) k = some v) ∧
    (∀ (u v : Json), (∀ a, u ≠ Json.obj a) ∨ (∀ b, v ≠ Json.obj b) → deep_merge u v = v) ∧
    (∀ (f : Folder) (patch : Json),
       (allowed_edit_statuses.contains f.status ||
        (f.status == Status.APPROVED_BY_HOD && f.first_activity_completed)) = true →
       patch.wfObjs = true →
       ∃ f1 f2, save_outline f true (some patch) none = Except.ok f1 ∧
         save_outline f1 true (some patch) none = Except.ok f2 ∧
         f2.outline_content = f1.outline_content ∧
         f1.outline_snapshots = pyOr f.outline_content (Json.obj []) :: f.outline_snapshots ∧
         f2.outline_snapshots = pyOr f1.outline_content (Json.obj []) :: f1.outline_snapshots ∧
         f2.outline_snapshots.length = f.outline_snapshots.length + 2) := by
  refine ⟨?_, ?_, deep_merge_nonobj, ?_⟩
  · intro a b k ra vb hnd hla hmem
    rw [lookupKey_mergeList_mem b a k (Json.obj vb) hnd hmem, hla]
    rfl
  · intro a b k v hnd hmem h
    rw [lookupKey_mergeList_mem b a k v hnd hmem]
    rcases h with h | h
    · rw [mergeValue_nonobj _ _ h]
    · rcases hla : lookupKey a k with _ | j
      · cases v <;> rfl
      · cases j with
        | obj ra => exact absurd hla (h ra)
        | null => cases v <;> rfl
        | bool x => cases v <;> rfl
        | num x => cases v <;> rfl
        | str x => cases v <;> rfl
        | arr x => cases v <;> rfl
  · intro f patch hedit hwf
    have hg : (!(allowed_edit_statuses.contains f.status) &&
        !(f.status == Status.APPROVED_BY_HOD && f.first_activity_completed)) = false := by
      cases h1 : allowed_edit_statuses.contains f.status <;>
        cases h2 : (f.status == Status.APPROVED_BY_HOD && f.first_activity_completed) <;>
        simp_all
    have hwfi : (incomingOf patch).wfObjs = true := wfObjs_incomingOf patch hwf
    obtain ⟨ikvs, hik⟩ := incomingOf_isObj patch
    have h1 := save_outline_whole f patch hg
    have hg1 : (!(allowed_edit_statuses.contains (Folder.status
        { f with
          outline_content := deep_merge (pyOr f.outline_content (Json.obj [])) (incomingOf patch)
          outline_snapshots := pyOr f.outline_content (Json.obj []) :: f.outline_snapshots })) &&
        !((Folder.status
        { f with
          outline_content := deep_merge (pyOr f.outline_content (Json.obj [])) (incomingOf patch)
          outline_snapshots := pyOr f.outline_content (Json.obj []) :: f.outline_snapshots })
          == Status.APPROVED_BY_HOD &&
          (Folder.first_activity_completed
        { f with
          outline_content := deep_merge (pyOr f.outline_content (Json.obj [])) (incomingOf patch)
          outline_snapshots := pyOr f.outline_content (Json.obj []) :: f.outline_snapshots }))) = false := hg
    have h2 := save_outline_whole _ patch hg1
    refine ⟨_, _, h1, h2, ?_, rfl, rfl, ?_⟩
    · show deep_merge (pyOr (deep_merge (pyOr f.outline_content (Json.obj [])) (incomingOf patch))
          (Json.obj [])) (incomingOf patch)
        = deep_merge (pyOr f.outline_content (Json.obj [])) (incomingOf patch)
      obtain ⟨ckvs, hck⟩ : ∃ kvs,
          deep_merge (pyOr f.outline_content (Json.obj [])) (incomingOf patch) = Json.obj kvs := by
        rw [hik]
        exact deep_merge_to_obj _ ikvs
      rw [hck, pyOr_obj, ← hck, deep_merge_absorb _ _ hwfi]
    · show (pyOr (deep_merge (pyOr f.outline_content (Json.obj [])) (incomingOf patch)) (Json.obj [])
          :: pyOr f.outline_content (Json.obj []) :: f.outline_snapshots).length
        = f.outline_snapshots.length + 2
      simp

/-- Witness for C8: concrete recursive-merge, wholesale replacement,
non-dict replacement, and double-save idempotence with two snapshots. -/
theorem c8_deep_merge_semantics_and_idempotence_witness :
    lookupKey (mergeList [("a", Json.obj [("x", Json.num 1)])] [("a", Json.obj [("y", Json.num 2)])]) "a"
      = some (deep_merge (Json.obj [("x", Json.num 1)]) (Json.obj [("y", Json.num 2)])) ∧
    lookupKey (mergeList [("b", Json.arr [Json.num 1])] [("b", Json.arr [Json.num 9])]) "b"
      = some (Json.arr [Json.num 9]) ∧
    deep_merge (Json.num 1) (Json.str "s") = Json.str "s" ∧
    (∃ f1 f2, save_outline { folder0 with outline_content := doc0 } true (some patch0) none
        = Except.ok f1 ∧
      save_outline f1 true (some patch0) none = Except.ok f2 ∧
      f2.outline_content = f1.outline_content ∧
      f1.outline_snapshots = pyOr ({ folder0 with outline_content := doc0 } : Folder).outline_content
        (Json.obj []) :: ({ folder0 with outline_content := doc0 } : Folder).outline_snapshots ∧
      f2.outline_snapshots = pyOr f1.outline_content (Json.obj []) :: f1.outline_snapshots ∧
      f2.outline_snapshots.length
        = ({ folder0 with outline_content := doc0 } : Folder).outline_snapshots.length + 2) :=
  ⟨c8_deep_merge_semantics_and_idempotence.1 [("a", Json.obj [("x", Json.num 1)])]
      [("a", Json.obj [("y", Json.num 2)])] "a" [("x", Json.num 1)] [("y", Json.num 2)]
      rfl rfl (by simp),
   c8_deep_merge_semantics_and_idempotence.2.1 [("b", Json.arr [Json.num 1])]
      [("b", Json.arr [Json.num 9])] "b" (Json.arr [Json.num 9])
      rfl (by simp) (Or.inl (fun vb h => Json.noConfusion h)),
   c8_deep_merge_semantics_and_idempotence.2.2.1 (Json.num 1) (Json.str "s")
      (Or.inl (fun a h => Json.noConfusion h)),
   c8_deep_merge_semantics_and_idempotence.2.2.2 { folder0 with outline_content := doc0 } patch0
      rfl (by simp [patch0, Json.wfObjs, wfList, nodupKeys])⟩

theorem lookupKey_isSome_iff (kvs : List (String × Json)) (k : String) :
    (lookupKey kvs k).isSome = true ↔ k ∈ kvs.map Prod.fst := by
  induction kvs with
  | nil => simp [lookupKey]
  | cons hd tl ih =>
      obtain ⟨k0, v0⟩ := hd
      by_cases h : k0 = k
      · simp [lookupKey, h]
      · simp [lookupKey, h, ih]
        intro heq
        exact absurd heq.symm h

theorem getOpt_isSome_iff (j : Json) (k : String) :
    (j.getOpt k).isSome = true ↔ k ∈ objKeys j := by
  cases j <;> simp [Json.getOpt, objKeys, lookupKey_isSome_iff]

/-- Counterexample for C5: for assessment list `[{id:"x"}]` and payload map
keyed `"9"`, the report-side lookup resolves positionally to `"9"`, but the
validator reports the entry's question paper as missing — its lookup has
no positional fallback, so the claim that BOTH lookups find the payload
fails. -/
theorem c5_counterexample :
    resolvePaperKey (Json.obj [("9", paperQ)]) (Json.str "x") 0 = some "9" ∧
    ((validate_submission_requirements folderDrifted).2.contains
      "Assignment 'Assignment x' (#1) is missing question paper. Please add questions to the assignment.") = true :=
  ⟨rfl, rfl⟩

/-- C5 (amended): the three-tier identifier resolution (exact,
string-normalized, positional) applies to the report/PDF lookups only —
when no exact or trimmed match exists and the index is in range, the
report lookup falls back to the positionally corresponding key; the
validator looks up by exact string identifier alone, behaving as if the
payload map were empty whenever the exact key is absent. -/
theorem c5_resolution_fallback_report_only :
    (∀ (papers : Json) (s : String) (idx : Nat),
       (∀ k ∈ objKeys papers, pyStrip k ≠ pyStrip s) →
       idx < (objKeys papers).length →
       resolvePaperKey papers (Json.str s) idx = (objKeys papers).get? idx) ∧
    (∀ (recs papers sols : Json) (i : Nat) (s : String),
       papers.getOpt s = none →
       item_errors "Assignment" "assignment" recs papers sols i (Json.obj [("id", Json.str s)]) =
       item_errors "Assignment" "assignment" recs (Json.obj []) sols i (Json.obj [("id", Json.str s)])) := by
  constructor
  · intro papers s idx hne hidx
    have hgetOpt : papers.getOpt s = none := by
      rcases hgo : papers.getOpt s with _ | v
      · rfl
      · exfalso
        have hmem : s ∈ objKeys papers := by
          rw [← getOpt_isSome_iff, hgo]
          rfl
        exact hne s hmem rfl
    have hfind : (objKeys papers).find?
        (fun k => pyStrip k == pyStrip s || pyStrip k == pyStrip s) = none := by
      rw [List.find?_eq_none]
      intro k hk
      simp [hne k hk]
    unfold resolvePaperKey
    simp only [pyStr, Json.truthy, keyMem, hgetOpt, Option.isSome, Bool.and_false, if_false,
      Bool.false_eq_true, reduceIte]
    rw [hfind]
    rw [if_pos hidx]
  · intro recs papers sols i s hgo
    have hkey : Json.getD papers s (Json.obj []) = Json.obj [] := by
      simp [Json.getD, hgo]
    unfold item_errors
    simp only [show pyStr (Json.getD (Json.obj [("id", Json.str s)]) "id" (Json.str "")) = s from rfl,
      hkey, show Json.getD (Json.obj []) s (Json.obj []) = Json.obj [] from rfl]

/-- Witness for C5 (amended): the regression inputs of the claim. -/
theorem c5_resolution_fallback_report_only_witness :
    resolvePaperKey (Json.obj [("9", paperQ)]) (Json.str "x") 0
      = (objKeys (Json.obj [("9", paperQ)])).get? 0 ∧
    item_errors "Assignment" "assignment" (Json.obj []) (Json.obj [("9", paperQ)]) (Json.obj [])
        1 (Json.obj [("id", Json.str "x")]) =
      item_errors "Assignment" "assignment" (Json.obj []) (Json.obj []) (Json.obj [])
        1 (Json.obj [("id", Json.str "x")]) :=
  ⟨c5_resolution_fallback_report_only.1 (Json.obj [("9", paperQ)]) "x" 0
      (by intro k hk; fin_cases hk <;> decide) (by decide),
   c5_resolution_fallback_report_only.2 (Json.obj []) (Json.obj [("9", paperQ)]) (Json.obj [])
      1 "x" rfl⟩

/-- Counterexample for C6: `folderMultiViolation` violates the
course-outline, attendance and CLO rules simultaneously, yet the validator
returns the single missing-midterm reason — the mid-stream `return` at the
midterm check discards every other accumulated diagnostic, so the
validator is not complete-in-one-call. -/
theorem c6_counterexample :
    validate_submission_requirements folderMultiViolation = (false, [beforeMidtermMsg]) ∧
    has_course_outline (outlineOf folderMultiViolation) = false ∧
    has_attendance folderMultiViolation = false ∧
    folderMultiViolation.clo_assessment_file = false ∧
    attendanceRequiredMsg ∉ (validate_submission_requirements folderMultiViolation).2 :=
  ⟨rfl, rfl, rfl, rfl, by decide⟩

/-- C6 (amended): the validator aggregates complete diagnostics only past
its three fail-fast early exits (empty document, no recognizable content,
missing midterm on a first submission), each of which returns a single
reason and discards the rest; past them, the returned list is the full
concatenation of every check's reasons, so e.g. a missing attendance proof
always contributes its reason to the list. -/
theorem c6_diagnostics_complete_after_early_exits (f : Folder)
    (ho : (outlineOf f).truthy = true)
    (hc : hasAnyContent f = true)
    (hm : (!(is_second_submission f) && !(has_midterm (outlineOf f))) = false) :
    (validate_submission_requirements f).2 =
      check2_errors f ++ attendance_errors f ++ stage_final_errors f ++
      midterm_errors f ++ final_errors f ++ clo_errors f ++
      docs_errors f ++ assignments_errors f ++ quizzes_errors f ∧
    (has_attendance f = false →
      attendanceRequiredMsg ∈ (validate_submission_requirements f).2) := by
  have hv : (validate_submission_requirements f).2 =
      check2_errors f ++ attendance_errors f ++ stage_final_errors f ++
      midterm_errors f ++ final_errors f ++ clo_errors f ++
      docs_errors f ++ assignments_errors f ++ quizzes_errors f := by
    unfold validate_submission_requirements
    simp only [ho, hc, hm, Bool.not_true, Bool.false_eq_true, reduceIte]
  refine ⟨hv, ?_⟩
  intro hatt
  rw [hv]
  have ha : attendance_errors f = [attendanceRequiredMsg] := by
    simp [attendance_errors, hatt]
  rw [ha]
  simp [List.mem_append]

/-- Witness for C6 (amended): on `folderNoAttendance` no early exit fires
and the missing-attendance reason is reported. -/
theorem c6_diagnostics_complete_after_early_exits_witness :
    attendanceRequiredMsg ∈ (validate_submission_requirements folderNoAttendance).2 :=
  (c6_diagnostics_complete_after_early_exits folderNoAttendance rfl rfl rfl).2 rfl

/-- Counterexample for C7: `folderPartialLogs` has NO dedicated attendance
upload, NO embedded attendance record, and NOT every log entry carries an
attendance sheet (only the first of two does) — yet the validator accepts
the attendance requirement and reports no missing-attendance reason: the
log-entry check is existential, not universal. -/
theorem c7_counterexample :
    has_attendance_component folderPartialLogs = false ∧
    has_attendance_in_outline (outlineOf folderPartialLogs) = false ∧
    folderPartialLogs.log_entries.all (fun e => hasFile e.attendance_sheet) = false ∧
    has_attendance folderPartialLogs = true ∧
    attendance_errors folderPartialLogs = [] ∧
    attendanceRequiredMsg ∉ (validate_submission_requirements folderPartialLogs).2 :=
  ⟨rfl, rfl, rfl, rfl, rfl, by decide⟩

/-- C7 (amended): the validator accepts the attendance requirement exactly
when a dedicated ATTENDANCE component with a file exists, OR at least ONE
log entry (not every entry) carries an attendance sheet, OR an attendance
record is embedded in the content document; when all three lookups fail it
emits the single missing-attendance reason. -/
theorem c7_attendance_existential_in_logs (f : Folder) :
    (attendance_errors f =
      if has_attendance f then [] else [attendanceRequiredMsg]) ∧
    (has_attendance f = true ↔
      has_attendance_component f = true ∨
      (∃ e ∈ f.log_entries, hasFile e.attendance_sheet = true) ∨
      has_attendance_in_outline (outlineOf f) = true) := by
  constructor
  · cases h : has_attendance f <;> simp [attendance_errors, h]
  · simp [has_attendance, has_attendance_in_logs, List.any_eq_true, or_assoc]

end CFMS
